import Mathlib

/- Core Lean marks the `Rat` field operations `@[irreducible]`; restore
default reducibility so that concrete runs of the embedded engine can be
evaluated by `decide`/`rfl`. -/
set_option allowUnsafeReducibility true
attribute [semireducible] Rat.add Rat.sub Rat.mul Rat.div Rat.neg Rat.inv

/-!
# geo-reader: route-planning engine, shallow embedding

This file embeds the spatial route-planning core of the `geo-reader`
repository (`src/queries/plan_routes/`) in Lean 4 and settles the frozen
claims about it.

Modelling conventions:

* `f64` values (coordinates, distances, scores) are modelled as `ℚ`.
  The engine performs only field arithmetic and order comparisons on them,
  so the idealisation is exact except at the representation error of the
  literal constants (`0.005`, `0.01`, `0.8`, ...), which we take at their
  decimal face value.
* GeoJSON positions (`Vec<f64>` of length 2, accessed as `coord[0]`,
  `coord[1]` = longitude, latitude) are modelled as pairs `Pt = ℚ × ℚ`.
* `HashMap` fields are modelled as association lists; Rust's `HashMap`
  iteration order is unspecified, the list order stands in for one such
  order.  `HashSet<String>` is modelled as a `List String` with
  `insert = cons` and `remove = erase` (the code only inserts elements it
  has just checked to be absent, so this is exact).
* The point-to-point, point-to-linestring and point-to-(multi)polygon
  distance functions and the polygon containment test come from the
  external `geo` crate; they are external code, not code of this
  repository, and are taken as parameters (`dist`, `dLine`, `mpContains`,
  `mpRingDist`) of the embedding.  One fact of the `geo` crate is built
  into the model because code behaviour depends on it: the Euclidean
  distance from a point to a polygon is `0` when the polygon contains the
  point (geo computes the ring distance only for non-contained points);
  this is `mpDist` below.
* Rust `i32` counters (`max_transfers`, `transfers_count`) are modelled as
  `ℤ`; the engine only decrements the budget while it is positive and the
  segment counts stay tiny, so two's-complement wraparound is unreachable.
* Panics (`Option::unwrap` on a stop coordinate in `find_direct_transfer`)
  are modelled with `Except Unit`.  The `unwrap` calls on
  `properties.codigo_de` are modelled as `Option.getD ""`: the `routes`
  map is built (`SpatialSearch::new`) by `filter_map` keeping exactly the
  features whose `codigo_de` is `Some`, so those unwraps cannot fail on a
  constructed `SpatialSearch`; the claims under study do not depend on
  that corner.
-/

/-- A planar point `(x, y) = (longitude, latitude)`, as built by
`geo::Point::new(longitud, latitud)` / `Point::new(coord[0], coord[1])`. -/
abbrev Pt : Type := ℚ × ℚ

/-- `src/queries/plan_routes/_structs.rs`: `GeoJsonGeometry` (serde-tagged
enum).  Coordinate arrays are modelled as (lists of) points. -/
inductive GeoJsonGeometry : Type
  | point (coordinates : List ℚ)
  | lineString (coordinates : List Pt)
  | polygon (coordinates : List (List Pt))
  | multiPolygon (coordinates : List (List (List Pt)))
  | multiLineString (coordinates : List (List Pt))
deriving DecidableEq, Repr

/-- `_structs.rs`: `GeoJsonFeature<T>`.  The `type` string field takes
part in the derived `PartialEq` (used by `destination_routes.contains`),
so it is kept. -/
structure GeoJsonFeature (T : Type) : Type where
  rtype : String
  properties : T
  geometry : GeoJsonGeometry
deriving DecidableEq, Repr

/-- `_structs.rs`: `BusStopProperties` (the fields the planner reads:
route code, latitude, longitude; the remaining serde fields are never
consulted by the code under study). -/
structure BusStopProperties : Type where
  ruta : Option String
  latitud : Option ℚ
  longitud : Option ℚ
deriving DecidableEq, Repr

/-- `_structs.rs`: `RouteProperties` (fields read by the planner). -/
structure RouteProperties : Type where
  codigo_de : Option String
  nombre_de : Option String
deriving DecidableEq, Repr

/-- `_structs.rs`: `TransferType`. -/
inductive TransferType : Type
  | Direct
  | Near
  | Proximate
deriving DecidableEq, Repr

/-- `_structs.rs`: `TransferPoint`. -/
structure TransferPoint : Type where
  location : Pt
  bus_stop : Option BusStopProperties
  distance_to_route : ℚ
  transfer_type : TransferType
  from_route : String
  to_route : String
deriving DecidableEq, Repr

/-- `_structs.rs`: `RouteSegment`. -/
structure RouteSegment : Type where
  route : RouteProperties
  transfer_point : TransferPoint
  transfer_type : TransferType
  segment_distance : ℚ
deriving DecidableEq, Repr

/-- `_structs.rs`: `RoutePlan`. -/
structure RoutePlan : Type where
  routes : List RouteSegment
  total_distance : ℚ
  transfers_count : ℤ
  is_interdepartmental : Bool
deriving DecidableEq, Repr

/-- `RoutePlan::new()`. -/
def RoutePlan.new : RoutePlan :=
  { routes := [], total_distance := 0, transfers_count := 0,
    is_interdepartmental := false }

/-- `RoutePlan::add_segment`: pushes the segment, adds its distance to the
running total and recomputes `transfers_count = routes.len() as i32 - 1`. -/
def RoutePlan.add_segment (p : RoutePlan) (segment : RouteSegment) : RoutePlan :=
  { p with
    total_distance := p.total_distance + segment.segment_distance
    routes := p.routes ++ [segment]
    transfers_count := ((p.routes ++ [segment]).length : ℤ) - 1 }

/-- `spatial_search.rs`: `SearchError`. -/
inductive SearchError : Type
  | NoRoutesNearOrigin
  | NoRoutesNearDestination
  | NoValidPath
  | MaxTransfersExceeded
  | DistanceError (msg : String)
  | CacheError (msg : String)
deriving DecidableEq, Repr

/-- `geo_validation.rs`: `ValidationError`. -/
inductive ValidationError : Type
  | InvalidCoordinates
  | OutsideCountry
  | DepartmentNotFound
  | GeometryError (msg : String)
deriving DecidableEq, Repr

/-- `index.rs`: `PlanningError`. -/
inductive PlanningError : Type
  | ValidationError (e : ValidationError)
  | SearchError (e : SearchError)
  | ConfigError (msg : String)
  | NoValidRoutes
deriving DecidableEq, Repr

/-- `geo_validation.rs`: `ValidationResult`. -/
structure ValidationResult : Type where
  is_valid : Bool
  origin_department : Option String
  destination_department : Option String
  is_interdepartmental : Bool
  distance_to_boundary : ℚ
deriving DecidableEq, Repr

/-- A `geo_types::MultiPolygon`: a list of polygons, each an exterior ring
with a list of interior rings (as assembled by `GeoValidator::new`). -/
abbrev MultiPolygon : Type := List (List Pt × List (List Pt))

/-- `geo_validation.rs`: `DepartmentBoundary`. -/
structure DepartmentBoundary : Type where
  name : String
  boundary : MultiPolygon
deriving DecidableEq, Repr

/-- `geo_validation.rs`: `GeoValidator` (the parsed department list). -/
structure GeoValidator : Type where
  departments : List DepartmentBoundary
deriving DecidableEq, Repr

/-- `index.rs`: `PlanningConfig`. -/
structure PlanningConfig : Type where
  max_route_distance : ℚ
  max_transfer_distance : ℚ
  max_transfers : ℤ
  results_limit : ℕ
deriving DecidableEq, Repr

/-- `PlanningConfig::default()`: `0.05`, `0.01`, `10`, `3`. -/
def PlanningConfig.default : PlanningConfig :=
  { max_route_distance := 1/20, max_transfer_distance := 1/100,
    max_transfers := 10, results_limit := 3 }

/-- `_structs.rs`: `RouteRequest`. -/
structure RouteRequest : Type where
  origin : Pt
  destination : Pt
  max_route_distance : ℚ
  max_transfer_distance : ℚ
  max_transfers : ℤ
deriving DecidableEq, Repr

/-- `spatial_search.rs`: the `SpatialSearch` state after construction.
`bus_stops` groups stops by route code, `routes` keys features by route
code, `route_intersections` is the precomputed (or cache-loaded)
adjacency map. -/
structure SpatialSearch : Type where
  bus_stops : List (String × List BusStopProperties)
  routes : List (String × GeoJsonFeature RouteProperties)
  route_intersections : List (String × List TransferPoint)
deriving DecidableEq, Repr

/-- `route.properties.codigo_de` as used for map keys and the visited
set: the code calls `.clone().unwrap_or_default()` when storing and
`.as_ref().unwrap()` when looking up; on a constructed `SpatialSearch`
every route in the map has `codigo_de = Some _` (see the header note), so
both coincide with `getD ""`. -/
def codeOf (r : GeoJsonFeature RouteProperties) : String :=
  r.properties.codigo_de.getD ""

/-- `f64::MAX = (2 - 2^(-52)) * 2^1023 = (2^53 - 1) * 2^971`, the
`unwrap_or` fallback of the empty-minimum cases, written as an explicit
integer literal so that it evaluates cheaply
(`f64MAX_eq` checks it against the closed form). -/
def f64MAX : ℚ := 179769313486231570814527423731704356798070567525844996598917476803157260780028538760589558632766878171540458953514382464234321326889464182768467546703537516986049910576551282076245490090389328944075868508455133942304583236903222948165808559332123348274797826204144723168738177180919299881250404026184124858368

/-- The minimum of a list of rationals (`Iterator::min_by` over
`partial_cmp`), `none` on the empty list. -/
def minQ? : List ℚ → Option ℚ
  | [] => none
  | q :: qs => some (qs.foldl min q)

instance {ε α : Type} [DecidableEq ε] [DecidableEq α] :
    DecidableEq (Except ε α) := fun a b =>
  match a, b with
  | .error x, .error y =>
      if h : x = y then isTrue (h ▸ rfl)
      else isFalse (fun hh => h (Except.error.inj hh))
  | .ok x, .ok y =>
      if h : x = y then isTrue (h ▸ rfl)
      else isFalse (fun hh => h (Except.ok.inj hh))
  | .error _, .ok _ => isFalse (fun hh => Except.noConfusion hh)
  | .ok _, .error _ => isFalse (fun hh => Except.noConfusion hh)

/-! ## SpatialSearch: nearest-route lookup and transfer precomputation

`dist : Pt → Pt → ℚ` stands for `geo`'s `Point::euclidean_distance` and
`dLine : List Pt → Pt → ℚ` for `LineString::euclidean_distance` to a
point (external crate code, see the header note). -/

/-- `find_nearby_routes`: every route whose `LineString` has a vertex
within `max_distance` of `point` (`values()` order). -/
def find_nearby_routes (s : SpatialSearch) (dist : Pt → Pt → ℚ)
    (point : Pt) (max_distance : ℚ) : List (GeoJsonFeature RouteProperties) :=
  (s.routes.map Prod.snd).filter fun route =>
    match route.geometry with
    | .lineString coordinates =>
        coordinates.any fun coord => decide (dist coord point ≤ max_distance)
    | _ => false

/-- `find_closest_point_on_route`: `min_by` over the polyline vertices
comparing the distance to `point`; Rust's `min_by` keeps the first of
equally minimal elements, hence the strict comparison. -/
def find_closest_point_on_route (dist : Pt → Pt → ℚ)
    (route : GeoJsonFeature RouteProperties) (point : Pt) : Option Pt :=
  match route.geometry with
  | .lineString coordinates =>
      match coordinates with
      | [] => none
      | c :: cs =>
          some (cs.foldl (fun best c2 =>
            if dist c2 point < dist best point then c2 else best) c)
  | _ => none

/-- `calculate_route_distance`: the linestring-to-point distance, `none`
for a non-`LineString` geometry. -/
def calculate_route_distance (dLine : List Pt → Pt → ℚ)
    (route : GeoJsonFeature RouteProperties) (point : Pt) : Option ℚ :=
  match route.geometry with
  | .lineString coordinates => some (dLine coordinates point)
  | _ => none

/-- The inner scan of `find_direct_transfer`: the first `stop1` matching
some `stop2` (comparing the *optional* latitude/longitude values, so two
absent coordinates compare equal) yields a Direct transfer built from
`stop1`; the `unwrap` of `stop1`'s coordinates panics (`.error ()`) when
the matching stop has an absent coordinate. -/
def directScan (route1 route2 : GeoJsonFeature RouteProperties) :
    List BusStopProperties → List BusStopProperties →
    Except Unit (Option TransferPoint)
  | [], _ => .ok none
  | stop1 :: rest, stops2 =>
      if stops2.any fun stop2 =>
          decide (stop1.latitud = stop2.latitud ∧ stop1.longitud = stop2.longitud) then
        match stop1.longitud, stop1.latitud with
        | some lo, some la =>
            .ok (some { location := (lo, la), bus_stop := some stop1,
                        distance_to_route := 0, transfer_type := .Direct,
                        from_route := route1.properties.codigo_de.getD "",
                        to_route := route2.properties.codigo_de.getD "" })
        | _, _ => .error ()
      else directScan route1 route2 rest stops2

/-- `find_direct_transfer`. -/
def find_direct_transfer (s : SpatialSearch)
    (route1 route2 : GeoJsonFeature RouteProperties) :
    Except Unit (Option TransferPoint) :=
  match s.bus_stops.lookup (codeOf route1), s.bus_stops.lookup (codeOf route2) with
  | some stops1, some stops2 => directScan route1 route2 stops1 stops2
  | _, _ => .ok none

/-- One iteration of `find_near_transfer`'s double loop: stops with an
absent coordinate are skipped; a strictly smaller distance replaces the
running best pair. -/
def nearStep (dist : Pt → Pt → ℚ) (r1c r2c : String)
    (stop1 stop2 : BusStopProperties)
    (acc : Option TransferPoint × ℚ) : Option TransferPoint × ℚ :=
  match stop1.longitud, stop1.latitud, stop2.longitud, stop2.latitud with
  | some lo1, some la1, some lo2, some la2 =>
      let d := dist (lo1, la1) (lo2, la2)
      if d < acc.2 then
        (some { location := (lo1, la1), bus_stop := some stop1,
                distance_to_route := d, transfer_type := .Near,
                from_route := r1c, to_route := r2c }, d)
      else acc
  | _, _, _, _ => acc

/-- `find_near_transfer`: best (minimum-distance) stop pair strictly
below `max_distance`. -/
def find_near_transfer (s : SpatialSearch) (dist : Pt → Pt → ℚ)
    (route1 route2 : GeoJsonFeature RouteProperties) (max_distance : ℚ) :
    Option TransferPoint :=
  match s.bus_stops.lookup (codeOf route1), s.bus_stops.lookup (codeOf route2) with
  | some stops1, some stops2 =>
      (stops1.foldl (fun acc stop1 =>
        stops2.foldl (fun acc stop2 =>
          nearStep dist (route1.properties.codigo_de.getD "")
            (route2.properties.codigo_de.getD "") stop1 stop2 acc) acc)
        (none, max_distance)).1
  | _, _ => none

/-- One iteration of `find_proximate_transfer`'s double loop over the two
polylines' vertices. -/
def proxStep (dist : Pt → Pt → ℚ) (r1c r2c : String) (c1 c2 : Pt)
    (acc : Option TransferPoint × ℚ) : Option TransferPoint × ℚ :=
  let d := dist c1 c2
  if d < acc.2 then
    (some { location := c1, bus_stop := none, distance_to_route := d,
            transfer_type := .Proximate, from_route := r1c, to_route := r2c }, d)
  else acc

/-- `find_proximate_transfer`: best (minimum-distance) vertex pair
strictly below `max_distance`. -/
def find_proximate_transfer (dist : Pt → Pt → ℚ)
    (route1 route2 : GeoJsonFeature RouteProperties) (max_distance : ℚ) :
    Option TransferPoint :=
  match route1.geometry, route2.geometry with
  | .lineString coords1, .lineString coords2 =>
      (coords1.foldl (fun acc c1 =>
        coords2.foldl (fun acc c2 =>
          proxStep dist (route1.properties.codigo_de.getD "")
            (route2.properties.codigo_de.getD "") c1 c2 acc) acc)
        (none, max_distance)).1
  | _, _ => none

/-- `find_best_transfer`: Direct, else Near (threshold `0.005`), else
Proximate (threshold `0.01`). -/
def find_best_transfer (s : SpatialSearch) (dist : Pt → Pt → ℚ)
    (route1 route2 : GeoJsonFeature RouteProperties) :
    Except Unit (Option TransferPoint) := do
  match ← find_direct_transfer s route1 route2 with
  | some transfer => pure (some transfer)
  | none =>
      match find_near_transfer s dist route1 route2 (1/200) with
      | some transfer => pure (some transfer)
      | none => pure (find_proximate_transfer dist route1 route2 (1/100))

/-- `find_potential_intersections`: the codes of routes with a vertex in
this route's axis-aligned bounding box expanded by `0.01` (the bbox fold
starts from `f64::MAX` / `f64::MIN`). -/
def find_potential_intersections (s : SpatialSearch)
    (route : GeoJsonFeature RouteProperties) : List String :=
  match route.geometry with
  | .lineString coordinates =>
      let min_x := coordinates.foldl (fun m c => min m c.1) f64MAX
      let min_y := coordinates.foldl (fun m c => min m c.2) f64MAX
      let max_x := coordinates.foldl (fun m c => max m c.1) (-f64MAX)
      let max_y := coordinates.foldl (fun m c => max m c.2) (-f64MAX)
      s.routes.filterMap fun entry =>
        match entry.2.geometry with
        | .lineString cs =>
            if cs.any fun c => decide (min_x - 1/100 ≤ c.1 ∧ c.1 ≤ max_x + 1/100 ∧
                min_y - 1/100 ≤ c.2 ∧ c.2 ≤ max_y + 1/100) then
              some entry.1
            else none
        | _ => none
  | _ => []

/-- The per-route body of `precalculate_intersections`: fold the pruned
neighbour candidates, skipping the route itself, collecting the best
transfer for each pair.  (The `self.routes[&other_code]` index cannot
miss: `other_code` is a key of `routes`; the `none` arm is unreachable.) -/
def routeNeighbors (s : SpatialSearch) (dist : Pt → Pt → ℚ)
    (route_code : String) (route1 : GeoJsonFeature RouteProperties) :
    Except Unit (List TransferPoint) :=
  (find_potential_intersections s route1).foldlM (fun acc other_code =>
    if route_code = other_code then pure acc
    else
      match s.routes.lookup other_code with
      | none => pure acc
      | some route2 => do
          match ← find_best_transfer s dist route1 route2 with
          | some transfer => pure (acc ++ [transfer])
          | none => pure acc) []

/-- `precalculate_intersections`: the adjacency map, one entry per route
code.  (The parallel worker pool computes disjoint keys; the merged map
is order-insensitive, modelled in `routes` order.) -/
def precalculate_intersections (s : SpatialSearch) (dist : Pt → Pt → ℚ) :
    Except Unit (List (String × List TransferPoint)) :=
  s.routes.mapM fun entry => do
    pure (entry.1, ← routeNeighbors s dist entry.1 entry.2)

/-! ## The bounded backtracking search -/

/-- The mutable state threaded through `explore_route_path`: the per-path
visited route-code set, the in-progress plan, and the accumulated result
list. -/
structure SearchState : Type where
  visited : List String
  current_plan : RoutePlan
  all_plans : List RoutePlan
deriving DecidableEq, Repr

/-- One iteration of the `for transfer in transfers` loop of
`explore_route_path` (`recur` is the recursive call at the decremented
budget): an unvisited target is explored, then backtracked — the route
code is erased from the visited set and the *last* segment of the
in-progress plan is popped (`Vec::pop`, which leaves `total_distance`
and `transfers_count` untouched). -/
def exploreStep (s : SpatialSearch) (dLine : List Pt → Pt → ℚ)
    (current_route : GeoJsonFeature RouteProperties)
    (recur : GeoJsonFeature RouteProperties → SearchState → SearchState)
    (st : SearchState) (transfer : TransferPoint) : SearchState :=
  match s.routes.lookup transfer.to_route with
  | none => st
  | some next_route =>
      if st.visited.contains (codeOf next_route) then st
      else
        let segment : RouteSegment :=
          { route := current_route.properties
            transfer_point := transfer
            transfer_type := transfer.transfer_type
            segment_distance :=
              (calculate_route_distance dLine current_route
                transfer.location).getD 0 }
        let st1 : SearchState :=
          { visited := codeOf next_route :: st.visited
            current_plan := st.current_plan.add_segment segment
            all_plans := st.all_plans }
        let st2 := recur next_route st1
        { visited := st2.visited.erase (codeOf next_route)
          current_plan :=
            { st2.current_plan with
              routes := st2.current_plan.routes.dropLast }
          all_plans := st2.all_plans }

/-- The body of `explore_route_path`, parameterised by the continuation
`next`: `none` encodes an exhausted budget (`transfers_left <= 0`),
`some recur` a positive budget whose recursive calls (at the decremented
budget) are `recur`.

* If the current route is a destination route and its polyline is
  non-empty, append a final Direct segment, clone the plan into the
  result list and return — the appended segment is *not* popped.
* Else, if the budget is exhausted, return.
* Else run the transfer loop (`exploreStep`) over the precomputed
  transfers of the current route. -/
def exploreCore (s : SpatialSearch) (dist : Pt → Pt → ℚ)
    (dLine : List Pt → Pt → ℚ)
    (destination_routes : List (GeoJsonFeature RouteProperties))
    (destination : Pt)
    (next : Option (GeoJsonFeature RouteProperties → SearchState → SearchState))
    (current_route : GeoJsonFeature RouteProperties)
    (st : SearchState) : SearchState :=
  match (if destination_routes.contains current_route then
          find_closest_point_on_route dist current_route destination
         else none) with
  | some end_point =>
      let segment : RouteSegment :=
        { route := current_route.properties
          transfer_type := .Direct
          transfer_point :=
            { location := end_point, bus_stop := none
              distance_to_route := dist end_point destination
              transfer_type := .Direct
              from_route := current_route.properties.codigo_de.getD ""
              to_route := "" }
          segment_distance :=
            (calculate_route_distance dLine current_route end_point).getD 0 }
      let plan' := st.current_plan.add_segment segment
      { st with current_plan := plan', all_plans := st.all_plans ++ [plan'] }
  | none =>
      match next with
      | none => st
      | some recur =>
          match s.route_intersections.lookup (codeOf current_route) with
          | none => st
          | some transfers =>
              transfers.foldl (exploreStep s dLine current_route recur) st

/-- `explore_route_path` with the `i32` budget replaced by fuel
`n = transfers_left.toNat` (see `explore_route_path` below): fuel `0` is
an exhausted budget, fuel `n + 1` recurses with fuel `n`. -/
def exploreFuel (s : SpatialSearch) (dist : Pt → Pt → ℚ)
    (dLine : List Pt → Pt → ℚ)
    (destination_routes : List (GeoJsonFeature RouteProperties))
    (destination : Pt) :
    ℕ → GeoJsonFeature RouteProperties → SearchState → SearchState
  | 0 => exploreCore s dist dLine destination_routes destination none
  | n + 1 => exploreCore s dist dLine destination_routes destination
      (some (exploreFuel s dist dLine destination_routes destination n))

/-- `explore_route_path` with its original `i32` budget: the source
checks `transfers_left <= 0` before recursing with `transfers_left - 1`,
which is exactly fuel `transfers_left.toNat`. -/
def explore_route_path (s : SpatialSearch) (dist : Pt → Pt → ℚ)
    (dLine : List Pt → Pt → ℚ)
    (current_route : GeoJsonFeature RouteProperties)
    (destination_routes : List (GeoJsonFeature RouteProperties))
    (destination : Pt) (transfers_left : ℤ) (st : SearchState) : SearchState :=
  exploreFuel s dist dLine destination_routes destination
    transfers_left.toNat current_route st

/-- The accumulation loop of `find_all_possible_routes`: one
backtracking search per candidate start route, with a fresh plan and a
visited set holding only the start route's code; the result list is
shared across start routes. -/
def searchPlans (s : SpatialSearch) (dist : Pt → Pt → ℚ)
    (dLine : List Pt → Pt → ℚ)
    (origin_routes destination_routes : List (GeoJsonFeature RouteProperties))
    (destination : Pt) (max_transfers : ℤ) : List RoutePlan :=
  origin_routes.foldl (fun acc start_route =>
    (explore_route_path s dist dLine start_route destination_routes
      destination max_transfers
      { visited := [start_route.properties.codigo_de.getD ""]
        current_plan := RoutePlan.new
        all_plans := acc }).all_plans) []

/-- `find_all_possible_routes` (the unused `origin` parameter of the
source is kept). -/
def find_all_possible_routes (s : SpatialSearch) (dist : Pt → Pt → ℚ)
    (dLine : List Pt → Pt → ℚ)
    (origin_routes destination_routes : List (GeoJsonFeature RouteProperties))
    (origin destination : Pt) (max_transfers : ℤ) :
    Except SearchError (List RoutePlan) :=
  let _ := origin
  let plans := searchPlans s dist dLine origin_routes destination_routes
    destination max_transfers
  if plans = [] then .error .NoValidPath else .ok plans

/-- The comparator of `find_routes_to_destination`'s final sort:
`transfers_count` ascending, then `total_distance` ascending. -/
def planLE (a b : RoutePlan) : Prop :=
  a.transfers_count < b.transfers_count ∨
    (a.transfers_count = b.transfers_count ∧ a.total_distance ≤ b.total_distance)

instance : DecidableRel planLE := fun a b =>
  decidable_of_iff (a.transfers_count < b.transfers_count ∨
    (a.transfers_count = b.transfers_count ∧
      a.total_distance ≤ b.total_distance)) Iff.rfl

/-- `find_routes_to_destination`: candidate routes near each endpoint
(else `NoRoutesNearOrigin` / `NoRoutesNearDestination`, in that order),
the backtracking search, then a stable sort by
`(transfers_count, total_distance)` and the first 3 plans. -/
def find_routes_to_destination (s : SpatialSearch) (dist : Pt → Pt → ℚ)
    (dLine : List Pt → Pt → ℚ) (origin destination : Pt)
    (max_transfers : ℤ) (max_route_distance : ℚ) :
    Except SearchError (List RoutePlan) :=
  let origin_routes := find_nearby_routes s dist origin max_route_distance
  if origin_routes = [] then .error .NoRoutesNearOrigin
  else
    let destination_routes :=
      find_nearby_routes s dist destination max_route_distance
    if destination_routes = [] then .error .NoRoutesNearDestination
    else
      match find_all_possible_routes s dist dLine origin_routes
        destination_routes origin destination max_transfers with
      | .error e => .error e
      | .ok plans => .ok ((plans.insertionSort planLE).take 3)

/-! ## GeoValidator

`mpContains` stands for `geo`'s `MultiPolygon::contains(&Point)` and
`mpRingDist` for the Euclidean distance from a point to the rings of a
multipolygon.  `geo`'s `euclidean_distance` between a point and a
(multi)polygon returns `0` whenever the polygon contains the point and
the ring distance otherwise; `mpDist` packages that fact. -/

/-- `geo`'s point-to-multipolygon `euclidean_distance`: `0` for a
contained point, the ring distance otherwise. -/
def mpDist (mpContains : MultiPolygon → Pt → Bool)
    (mpRingDist : MultiPolygon → Pt → ℚ) (mp : MultiPolygon) (p : Pt) : ℚ :=
  if mpContains mp p then 0 else mpRingDist mp p

/-- `GeoValidator::validate_point`: the first department (input order)
containing the point; otherwise `Ok(None)` when the minimum distance to
a department is strictly below `0.01`, else `OutsideCountry` (the empty
minimum falls back to `f64::MAX`). -/
def validate_point (mpContains : MultiPolygon → Pt → Bool)
    (mpRingDist : MultiPolygon → Pt → ℚ) (v : GeoValidator) (p : Pt) :
    Except ValidationError (Option String) :=
  match v.departments.find? (fun dept => mpContains dept.boundary p) with
  | some dept => .ok (some dept.name)
  | none =>
      let min_distance :=
        (minQ? (v.departments.map fun dept =>
          mpDist mpContains mpRingDist dept.boundary p)).getD f64MAX
      if min_distance < 1/100 then .ok none else .error .OutsideCountry

/-- `GeoValidator::validate_route`: validates the two points
(propagating either failure), computes `distance_to_boundary` as the
minimum point-to-department distance of the *origin*, and classifies the
pair as interdepartmental when both points resolved to distinct
department names. -/
def validate_route (mpContains : MultiPolygon → Pt → Bool)
    (mpRingDist : MultiPolygon → Pt → ℚ) (v : GeoValidator)
    (origin destination : Pt) : Except ValidationError ValidationResult := do
  let origin_dept ← validate_point mpContains mpRingDist v origin
  let dest_dept ← validate_point mpContains mpRingDist v destination
  let distance_to_boundary :=
    (minQ? (v.departments.map fun dept =>
      mpDist mpContains mpRingDist dept.boundary origin)).getD f64MAX
  pure
    { is_valid := origin_dept.isSome && dest_dept.isSome
      origin_department := origin_dept
      destination_department := dest_dept
      is_interdepartmental :=
        match origin_dept, dest_dept with
        | some o, some d => decide (o ≠ d)
        | _, _ => false
      distance_to_boundary := distance_to_boundary }

/-- `GeoValidator::get_route_departments`: the departments containing at
least one vertex of the route's polyline. -/
def get_route_departments (mpContains : MultiPolygon → Pt → Bool)
    (v : GeoValidator) (route_feature : GeoJsonFeature RouteProperties) :
    List String :=
  match route_feature.geometry with
  | .lineString coords =>
      (v.departments.filter fun dept =>
        coords.any fun coord => mpContains dept.boundary coord).map (·.name)
  | _ => []

/-! ## RoutePlanner -/

/-- `index.rs`: `RoutePlanner`. -/
structure RoutePlanner : Type where
  config : PlanningConfig
  validator : GeoValidator
  search : SpatialSearch

/-- `RoutePlanner::create_route_request`: the configured thresholds,
both multiplied by `1.5` when the validated pair is interdepartmental,
and `max_route_distance` further multiplied by `1.2` when
`validation.distance_to_boundary` is strictly below the *configured*
`max_transfer_distance`. -/
def create_route_request (config : PlanningConfig) (origin destination : Pt)
    (validation : ValidationResult) : RouteRequest :=
  let request : RouteRequest :=
    { origin := origin, destination := destination
      max_route_distance := config.max_route_distance
      max_transfer_distance := config.max_transfer_distance
      max_transfers := config.max_transfers }
  let request :=
    if validation.is_interdepartmental then
      { request with
        max_route_distance := request.max_route_distance * (3/2)
        max_transfer_distance := request.max_transfer_distance * (3/2) }
    else request
  if validation.distance_to_boundary < config.max_transfer_distance then
    { request with max_route_distance := request.max_route_distance * (6/5) }
  else request

/-- The per-segment tier penalty of `calculate_plan_score`:
Direct `0`, Near `2`, Proximate `5`. -/
def tierPenalty : TransferType → ℚ
  | .Direct => 0
  | .Near => 2
  | .Proximate => 5

/-- `RoutePlanner::calculate_plan_score`: `transfers_count * 10`, plus
`total_distance / config.max_route_distance`, plus a per-segment tier
penalty (Direct `0`, Near `2`, Proximate `5`); then `* 0.8` when both
the query classification and the plan flag are interdepartmental, and
`* 1.2` when the plan flag is set but the query classification is not. -/
def calculate_plan_score (config : PlanningConfig) (plan : RoutePlan)
    (validation : ValidationResult) : ℚ :=
  let score : ℚ := 0
  let score := score + (plan.transfers_count : ℚ) * 10
  let score := score + plan.total_distance / config.max_route_distance
  let score := plan.routes.foldl (fun sc route =>
    sc + tierPenalty route.transfer_type) score
  let score :=
    if validation.is_interdepartmental && plan.is_interdepartmental then
      score * (4/5)
    else score
  if !validation.is_interdepartmental && plan.is_interdepartmental then
    score * (6/5)
  else score

/-- `RoutePlanner::optimize_results`: score every plan, stably sort the
`(index, score)` pairs by score ascending, and reorder the plans by the
sorted indices (`plans[idx]` is in range: the indices enumerate `plans`;
the `getD` default is unreachable). -/
def optimize_results (config : PlanningConfig) (validation : ValidationResult)
    (plans : List RoutePlan) : List RoutePlan :=
  let plan_scores : List (ℕ × ℚ) :=
    plans.enum.map fun e => (e.1, calculate_plan_score config e.2 validation)
  let sorted := plan_scores.insertionSort fun a b => a.2 ≤ b.2
  sorted.map fun e => plans.getD e.1 RoutePlan.new

/-- `RoutePlanner::plan_route`: validate, reject unresolved points,
build the widened request, search, score-and-rank, and return the first
`results_limit` plans (`NoValidRoutes` when the list is empty). -/
def plan_route (mpContains : MultiPolygon → Pt → Bool)
    (mpRingDist : MultiPolygon → Pt → ℚ) (dist : Pt → Pt → ℚ)
    (dLine : List Pt → Pt → ℚ) (planner : RoutePlanner)
    (origin destination : Pt) : Except PlanningError (List RoutePlan) :=
  match validate_route mpContains mpRingDist planner.validator origin
    destination with
  | .error e => .error (.ValidationError e)
  | .ok validation =>
      if !validation.is_valid then .error (.ValidationError .InvalidCoordinates)
      else
        let request := create_route_request planner.config origin destination
          validation
        match find_routes_to_destination planner.search dist dLine
          request.origin request.destination request.max_transfers
          request.max_route_distance with
        | .error e => .error (.SearchError e)
        | .ok plans =>
            let plans := optimize_results planner.config validation plans
            if plans = [] then .error .NoValidRoutes
            else .ok (plans.take planner.config.results_limit)

/-! ## Concrete instantiations of the external geometry

The theorems below are universally quantified over the external `geo`
distance/containment functions.  Concrete runs instantiate them with the
functions of this section, which agree with the planar Euclidean
geometry of the `geo` crate on every input those runs touch (all
comparisons and all stored distances involve axis-aligned point pairs,
horizontal polylines queried within their span, or pairs whose
coordinate gap already exceeds the compared threshold). -/

/-- Taxicab distance: equal to the Euclidean distance on axis-aligned
point pairs; on skew pairs it dominates the Euclidean distance, which
dominates the largest coordinate gap, so threshold comparisons agree
whenever that gap already exceeds the threshold. -/
def distL1 (p q : Pt) : ℚ := |p.1 - q.1| + |p.2 - q.2|

/-- Distance from `p` to the segment `a`–`b`, exact for the horizontal
segments queried below: `|p.2 - a.2|` when `p.1` lies within the span,
else the taxicab distance to the nearer endpoint. -/
def hSegPtDist (a b p : Pt) : ℚ :=
  if min a.1 b.1 ≤ p.1 ∧ p.1 ≤ max a.1 b.1 then |p.2 - a.2|
  else min (distL1 p a) (distL1 p b)

/-- Point-to-polyline distance: minimum of `hSegPtDist` over the
consecutive segments. -/
def dLineH (coords : List Pt) (p : Pt) : ℚ :=
  ((coords.zip coords.tail).map fun ab => hSegPtDist ab.1 ab.2 p).foldl
    min f64MAX

/-- An axis-aligned rectangle as a one-polygon `MultiPolygon` with a
closed 5-point exterior ring and no interior rings. -/
def rectMP (x0 y0 x1 y1 : ℚ) : MultiPolygon :=
  [([(x0, y0), (x1, y0), (x1, y1), (x0, y1), (x0, y0)], [])]

/-- `geo`'s `Contains` for the rectangles built by `rectMP`: the open
interior. -/
def rectContains (mp : MultiPolygon) (p : Pt) : Bool :=
  match mp with
  | [(ring, _)] =>
      match ring with
      | [(x0, y0), (x1, _), (_, y1), _, _] =>
          decide (x0 < p.1 ∧ p.1 < x1 ∧ y0 < p.2 ∧ p.2 < y1)
      | _ => false
  | _ => false

/-- Euclidean distance from `p` to the boundary rings of a `rectMP`
rectangle: exact for interior points and for exterior points outside
the corner regions (the concrete points below avoid the corners). -/
def rectRingDist (mp : MultiPolygon) (p : Pt) : ℚ :=
  match mp with
  | [((x0, y0) :: (x1, _) :: (_, y1) :: _, _)] =>
      let dx := max (x0 - p.1) (max 0 (p.1 - x1))
      let dy := max (y0 - p.2) (max 0 (p.2 - y1))
      if dx = 0 ∧ dy = 0 then
        min (min (p.1 - x0) (x1 - p.1)) (min (p.2 - y0) (y1 - p.2))
      else dx + dy
  | _ => 0

/-! ## Concrete datasets

Scenario `C1…`: three horizontal routes; `A` serves the origin, `B` and
`C` both serve the destination, each sharing one stop with `A`. -/

def featA1 : GeoJsonFeature RouteProperties :=
  { rtype := "Feature"
    properties := { codigo_de := some "A", nombre_de := some "Route A" }
    geometry := .lineString [(0, 0), (2, 0)] }

def featB1 : GeoJsonFeature RouteProperties :=
  { rtype := "Feature"
    properties := { codigo_de := some "B", nombre_de := some "Route B" }
    geometry := .lineString [(401/200, 0), (4, 0)] }

def featC1 : GeoJsonFeature RouteProperties :=
  { rtype := "Feature"
    properties := { codigo_de := some "C", nombre_de := some "Route C" }
    geometry := .lineString [(251/125, 0), (4, 0)] }

def stopA1a : BusStopProperties :=
  { ruta := some "A", latitud := some 0, longitud := some 1 }

def stopA1b : BusStopProperties :=
  { ruta := some "A", latitud := some 0, longitud := some (3/2) }

def stopB1 : BusStopProperties :=
  { ruta := some "B", latitud := some 0, longitud := some 1 }

def stopC1 : BusStopProperties :=
  { ruta := some "C", latitud := some 0, longitud := some (3/2) }

def tpAB1 : TransferPoint :=
  { location := (1, 0), bus_stop := some stopA1a, distance_to_route := 0
    transfer_type := .Direct, from_route := "A", to_route := "B" }

def tpAC1 : TransferPoint :=
  { location := (3/2, 0), bus_stop := some stopA1b, distance_to_route := 0
    transfer_type := .Direct, from_route := "A", to_route := "C" }

def tpBA1 : TransferPoint :=
  { location := (1, 0), bus_stop := some stopB1, distance_to_route := 0
    transfer_type := .Direct, from_route := "B", to_route := "A" }

def tpBC1 : TransferPoint :=
  { location := (4, 0), bus_stop := none, distance_to_route := 0
    transfer_type := .Proximate, from_route := "B", to_route := "C" }

def tpCA1 : TransferPoint :=
  { location := (3/2, 0), bus_stop := some stopC1, distance_to_route := 0
    transfer_type := .Direct, from_route := "C", to_route := "A" }

def tpCB1 : TransferPoint :=
  { location := (4, 0), bus_stop := none, distance_to_route := 0
    transfer_type := .Proximate, from_route := "C", to_route := "B" }

/-- The `C1` search state; `route_intersections` is what
`precalculate_intersections` computes on this dataset (checked in
`sC1_intersections_consistent`). -/
def sC1 : SpatialSearch :=
  { bus_stops := [("A", [stopA1a, stopA1b]), ("B", [stopB1]), ("C", [stopC1])]
    routes := [("A", featA1), ("B", featB1), ("C", featC1)]
    route_intersections :=
      [("A", [tpAB1, tpAC1]), ("B", [tpBA1, tpBC1]), ("C", [tpCA1, tpCB1])] }

/-! Scenario `C3…`: route `A` serves the origin, `C` the destination;
`B` is a dead end reached through a shared stop lying `0.005` off `A`'s
polyline, so the dead-end leg has a positive segment distance. -/

def featB3 : GeoJsonFeature RouteProperties :=
  { rtype := "Feature"
    properties := { codigo_de := some "B", nombre_de := some "Route B" }
    geometry := .lineString [(1, 1/200), (6/5, 1/200)] }

def featC3 : GeoJsonFeature RouteProperties :=
  { rtype := "Feature"
    properties := { codigo_de := some "C", nombre_de := some "Route C" }
    geometry := .lineString [(251/125, 0), (4, 0)] }

def stopA3a : BusStopProperties :=
  { ruta := some "A", latitud := some (1/200), longitud := some 1 }

def stopA3b : BusStopProperties :=
  { ruta := some "A", latitud := some 0, longitud := some (3/2) }

def stopB3 : BusStopProperties :=
  { ruta := some "B", latitud := some (1/200), longitud := some 1 }

def stopC3 : BusStopProperties :=
  { ruta := some "C", latitud := some 0, longitud := some (3/2) }

def tpAB3 : TransferPoint :=
  { location := (1, 1/200), bus_stop := some stopA3a, distance_to_route := 0
    transfer_type := .Direct, from_route := "A", to_route := "B" }

def tpAC3 : TransferPoint :=
  { location := (3/2, 0), bus_stop := some stopA3b, distance_to_route := 0
    transfer_type := .Direct, from_route := "A", to_route := "C" }

def tpCA3 : TransferPoint :=
  { location := (3/2, 0), bus_stop := some stopC3, distance_to_route := 0
    transfer_type := .Direct, from_route := "C", to_route := "A" }

/-- The `C3` search state; `route_intersections` again matches
`precalculate_intersections` (checked in
`sC3_intersections_consistent`). -/
def sC3 : SpatialSearch :=
  { bus_stops := [("A", [stopA3a, stopA3b]), ("B", [stopB3]), ("C", [stopC3])]
    routes := [("A", featA1), ("B", featB3), ("C", featC3)]
    route_intersections := [("A", [tpAB3, tpAC3]), ("B", []), ("C", [tpCA3])] }

/-! Scenario `C5…`/`C7…`: one route crossing two rectangular
departments. -/

def vC5 : GeoValidator :=
  { departments :=
      [ { name := "D1", boundary := rectMP (-1) (-1) 1 1 }
      , { name := "D2", boundary := rectMP (3/2) (-1) 5 1 } ] }

def sC5 : SpatialSearch :=
  { bus_stops := []
    routes := [("A", featA1)]
    route_intersections := [("A", [])] }

def plannerC5 : RoutePlanner :=
  { config := PlanningConfig.default, validator := vC5, search := sC5 }

/-! Scenario `C10…`: two routes whose stops both have absent
coordinates. -/

def featR1 : GeoJsonFeature RouteProperties :=
  { rtype := "Feature"
    properties := { codigo_de := some "R1", nombre_de := none }
    geometry := .lineString [(0, 0), (1, 0)] }

def featR2 : GeoJsonFeature RouteProperties :=
  { rtype := "Feature"
    properties := { codigo_de := some "R2", nombre_de := none }
    geometry := .lineString [(0, 1/1000), (1, 1/1000)] }

def stopR1 : BusStopProperties :=
  { ruta := some "R1", latitud := none, longitud := none }

def stopR2 : BusStopProperties :=
  { ruta := some "R2", latitud := none, longitud := none }

def sC10 : SpatialSearch :=
  { bus_stops := [("R1", [stopR1]), ("R2", [stopR2])]
    routes := [("R1", featR1), ("R2", featR2)]
    route_intersections := [] }

/-! ## Derived definitions used by the theorems -/

/-! ## The backtracking-state invariant

`ExploreInv st st'` relates the state at entry (`st`) and at exit
(`st'`) of one `explore_route_path` call: the visited set is restored,
the result list only grows, the in-progress plan gains exactly one
segment per plan emitted during the call and keeps its
`is_interdepartmental` flag, and every emitted plan satisfies
`transfers_count = segments - 1` and carries the in-progress flag. -/
def ExploreInv (st st' : SearchState) : Prop :=
  st'.visited = st.visited ∧
  ∃ new, st'.all_plans = st.all_plans ++ new ∧
    st'.current_plan.routes.length =
      st.current_plan.routes.length + new.length ∧
    st'.current_plan.is_interdepartmental =
      st.current_plan.is_interdepartmental ∧
    ∀ p ∈ new, p.transfers_count = (p.routes.length : ℤ) - 1 ∧
      p.is_interdepartmental = st.current_plan.is_interdepartmental

/-- The plan list of the concrete `C3` run. -/
def plansC3run : List RoutePlan :=
  ((find_routes_to_destination sC3 distL1 dLineH (0, 0) (4, 0) 1
    (1/10)).toOption).getD []

/-- The plan list of the concrete `C5` run. -/
def plansC5run : List RoutePlan :=
  ((plan_route rectContains rectRingDist distL1 dLineH plannerC5 (0, 1/20)
    (2, 1/20)).toOption).getD []

/-- The score formula as the claim states it: base score
`transfers_count * 10 + total_distance / max_route_distance + Σ tier
penalty`, multiplied by `0.8` whenever the plan's flag *equals* the
query's interdepartmental classification and by `1.2` whenever the two
differ. -/
def claimedPlanScore (config : PlanningConfig) (plan : RoutePlan)
    (validation : ValidationResult) : ℚ :=
  let base := (plan.transfers_count : ℚ) * 10 +
    plan.total_distance / config.max_route_distance +
    (plan.routes.map fun r => tierPenalty r.transfer_type).sum
  if plan.is_interdepartmental = validation.is_interdepartmental then
    base * (4/5)
  else base * (6/5)

/-- A one-transfer plan with a Near segment (`C4` scoring data). -/
def planC4 : RoutePlan :=
  { routes := [{ route := featA1.properties, transfer_point := tpAB1
                 transfer_type := .Near, segment_distance := 0 }]
    total_distance := 0
    transfers_count := 1
    is_interdepartmental := false }

/-- A validation outcome with both points in the same department
(`C4`/`C7` data). -/
def valC4 : ValidationResult :=
  { is_valid := true
    origin_department := some "D1"
    destination_department := some "D1"
    is_interdepartmental := false
    distance_to_boundary := 1 }


/-- "Some route's polyline has a vertex within `d` of `p`" — the
predicate behind the candidate sets of `find_routes_to_destination`. -/
def NearbyExists (s : SpatialSearch) (dist : Pt → Pt → ℚ) (p : Pt)
    (d : ℚ) : Prop :=
  ∃ r ∈ s.routes.map Prod.snd, ∃ coords,
    r.geometry = .lineString coords ∧ ∃ c ∈ coords, dist c p ≤ d

/-- The validation outcome of the concrete `C7` run. -/
def valC7run : ValidationResult :=
  ((validate_route rectContains rectRingDist vC5 (0, 1/20)
    (2, 1/20)).toOption).getD valC4

/-- A stop's position as built by `Point::new(longitud, latitud)` after
the `unwrap`s (total via `getD`; only used under the all-coordinates-
present precondition). -/
def stopPos (b : BusStopProperties) : Pt :=
  (b.longitud.getD 0, b.latitud.getD 0)

/-- The common shape of one iteration of the Near/Proximate
minimum-distance loops: `cand x = none` means the candidate is skipped
(a stop with an absent coordinate), `cand x = some (tp, d)` that it
offers transfer point `tp` at distance `d`, adopted iff strictly better
than the running best. -/
def genStep {σ : Type} (cand : σ → Option (TransferPoint × ℚ))
    (acc : Option TransferPoint × ℚ) (x : σ) : Option TransferPoint × ℚ :=
  match cand x with
  | none => acc
  | some (tp, d) => if d < acc.2 then (some tp, d) else acc

/-- The candidate view of one stop pair in `find_near_transfer`. -/
def nearCand (dist : Pt → Pt → ℚ) (r1c r2c : String)
    (p : BusStopProperties × BusStopProperties) :
    Option (TransferPoint × ℚ) :=
  match p.1.longitud, p.1.latitud, p.2.longitud, p.2.latitud with
  | some lo1, some la1, some lo2, some la2 =>
      some ({ location := (lo1, la1), bus_stop := some p.1
              distance_to_route := dist (lo1, la1) (lo2, la2)
              transfer_type := .Near, from_route := r1c, to_route := r2c },
            dist (lo1, la1) (lo2, la2))
  | _, _, _, _ => none

/-- The candidate view of one vertex pair in
`find_proximate_transfer`. -/
def proxCand (dist : Pt → Pt → ℚ) (r1c r2c : String) (p : Pt × Pt) :
    Option (TransferPoint × ℚ) :=
  some ({ location := p.1, bus_stop := none
          distance_to_route := dist p.1 p.2
          transfer_type := .Proximate, from_route := r1c, to_route := r2c },
        dist p.1 p.2)

/-! ## Small auxiliary lemmas -/

/-- `f64MAX` matches the closed form of `f64::MAX`. -/
theorem f64MAX_eq : f64MAX = (2 - 1/2^52) * 2^1023 := by norm_num [f64MAX]

theorem RoutePlan.add_segment_routes (p : RoutePlan) (s : RouteSegment) :
    (p.add_segment s).routes = p.routes ++ [s] := rfl

theorem RoutePlan.add_segment_flag (p : RoutePlan) (s : RouteSegment) :
    (p.add_segment s).is_interdepartmental = p.is_interdepartmental := rfl

theorem RoutePlan.add_segment_count (p : RoutePlan) (s : RouteSegment) :
    (p.add_segment s).transfers_count =
      ((p.add_segment s).routes.length : ℤ) - 1 := rfl

theorem List.getD_mem_or {α : Type} (l : List α) (i : ℕ) (d : α) :
    l.getD i d ∈ l ∨ l.getD i d = d := by
  rcases h : l[i]? with _ | x
  · right; simp [List.getD_eq_getElem?_getD, h]
  · left
    have hx : x ∈ l := List.getElem?_mem h
    simpa [List.getD_eq_getElem?_getD, h] using hx


theorem ExploreInv.refl (st : SearchState) : ExploreInv st st :=
  ⟨rfl, [], by simp, by simp, rfl, by simp⟩

theorem ExploreInv.trans {st st' st'' : SearchState}
    (h1 : ExploreInv st st') (h2 : ExploreInv st' st'') :
    ExploreInv st st'' := by
  obtain ⟨hv1, new1, ha1, hl1, hf1, hp1⟩ := h1
  obtain ⟨hv2, new2, ha2, hl2, hf2, hp2⟩ := h2
  refine ⟨hv2.trans hv1, new1 ++ new2, ?_, ?_, hf2.trans hf1, ?_⟩
  · rw [ha2, ha1, List.append_assoc]
  · rw [hl2, hl1, List.length_append]; omega
  · intro p hp
    rcases List.mem_append.1 hp with h | h
    · exact hp1 p h
    · obtain ⟨hc, hf⟩ := hp2 p h
      exact ⟨hc, hf.trans hf1⟩

theorem exploreStep_inv (s : SpatialSearch) (dLine : List Pt → Pt → ℚ)
    (cur : GeoJsonFeature RouteProperties)
    (recur : GeoJsonFeature RouteProperties → SearchState → SearchState)
    (hrec : ∀ cur st, ExploreInv st (recur cur st))
    (st : SearchState) (t : TransferPoint) :
    ExploreInv st (exploreStep s dLine cur recur st t) := by
  unfold exploreStep
  split
  · exact ExploreInv.refl st
  · split
    · exact ExploreInv.refl st
    · rename_i next_route heqr hv
      -- one explored alternative followed by backtracking
      dsimp only
      obtain ⟨hv2, new, ha2, hl2, hf2, hp2⟩ :=
        hrec next_route
          { visited := codeOf next_route :: st.visited
            current_plan := st.current_plan.add_segment
              { route := cur.properties
                transfer_point := t
                transfer_type := t.transfer_type
                segment_distance :=
                  (calculate_route_distance dLine cur t.location).getD 0 }
            all_plans := st.all_plans }
      refine ⟨?_, new, ha2, ?_, hf2, ?_⟩
      · rw [hv2]; exact List.erase_cons_head ..
      · simp only [List.length_dropLast, hl2]
        simp [RoutePlan.add_segment]
      · intro p hp
        exact hp2 p hp

theorem foldl_exploreStep_inv (s : SpatialSearch) (dLine : List Pt → Pt → ℚ)
    (cur : GeoJsonFeature RouteProperties)
    (recur : GeoJsonFeature RouteProperties → SearchState → SearchState)
    (hrec : ∀ cur st, ExploreInv st (recur cur st)) :
    ∀ (l : List TransferPoint) (st : SearchState),
      ExploreInv st (l.foldl (exploreStep s dLine cur recur) st)
  | [], st => ExploreInv.refl st
  | t :: rest, st => by
      rw [List.foldl_cons]
      exact ExploreInv.trans (exploreStep_inv s dLine cur recur hrec st t)
        (foldl_exploreStep_inv s dLine cur recur hrec rest _)

theorem exploreCore_inv (s : SpatialSearch) (dist : Pt → Pt → ℚ)
    (dLine : List Pt → Pt → ℚ)
    (destination_routes : List (GeoJsonFeature RouteProperties))
    (destination : Pt)
    (next : Option (GeoJsonFeature RouteProperties → SearchState → SearchState))
    (hnext : ∀ recur, next = some recur →
      ∀ cur st, ExploreInv st (recur cur st))
    (cur : GeoJsonFeature RouteProperties) (st : SearchState) :
    ExploreInv st
      (exploreCore s dist dLine destination_routes destination next cur st) := by
  unfold exploreCore
  cases hc : (if destination_routes.contains cur then
      find_closest_point_on_route dist cur destination else none) with
  | some end_point =>
      refine ⟨rfl, [st.current_plan.add_segment _], rfl, ?_, rfl, ?_⟩
      · simp [RoutePlan.add_segment]
      · intro p hp
        rcases List.mem_singleton.1 hp with rfl
        exact ⟨rfl, rfl⟩
  | none =>
      rcases next with _ | recur
      · exact ExploreInv.refl st
      · cases hl : List.lookup (codeOf cur) s.route_intersections with
        | none => exact ExploreInv.refl st
        | some transfers =>
            exact foldl_exploreStep_inv s dLine cur recur
              (hnext recur rfl) transfers st

theorem exploreFuel_inv (s : SpatialSearch) (dist : Pt → Pt → ℚ)
    (dLine : List Pt → Pt → ℚ)
    (destination_routes : List (GeoJsonFeature RouteProperties))
    (destination : Pt) :
    ∀ (n : ℕ) (cur : GeoJsonFeature RouteProperties) (st : SearchState),
      ExploreInv st
        (exploreFuel s dist dLine destination_routes destination n cur st)
  | 0, cur, st =>
      exploreCore_inv s dist dLine destination_routes destination none
        (fun _ h => nomatch h) cur st
  | n + 1, cur, st =>
      exploreCore_inv s dist dLine destination_routes destination
        (some (exploreFuel s dist dLine destination_routes destination n))
        (fun r h => by
          injection h with h'
          subst h'
          exact exploreFuel_inv s dist dLine destination_routes destination n)
        cur st

theorem explore_route_path_inv (s : SpatialSearch) (dist : Pt → Pt → ℚ)
    (dLine : List Pt → Pt → ℚ) (cur : GeoJsonFeature RouteProperties)
    (destination_routes : List (GeoJsonFeature RouteProperties))
    (destination : Pt) (transfers_left : ℤ) (st : SearchState) :
    ExploreInv st (explore_route_path s dist dLine cur destination_routes
      destination transfers_left st) :=
  exploreFuel_inv s dist dLine destination_routes destination
    transfers_left.toNat cur st

/-- Every plan accumulated by the search loop satisfies
`transfers_count = segments - 1` and has `is_interdepartmental = false`
(the in-progress plan starts from `RoutePlan::new` and the flag is never
written). -/
theorem searchPlans_mem (s : SpatialSearch) (dist : Pt → Pt → ℚ)
    (dLine : List Pt → Pt → ℚ)
    (origin_routes destination_routes : List (GeoJsonFeature RouteProperties))
    (destination : Pt) (max_transfers : ℤ) :
    ∀ p ∈ searchPlans s dist dLine origin_routes destination_routes
        destination max_transfers,
      p.transfers_count = (p.routes.length : ℤ) - 1 ∧
        p.is_interdepartmental = false := by
  unfold searchPlans
  suffices h : ∀ (l : List (GeoJsonFeature RouteProperties))
      (acc : List RoutePlan),
      (∀ p ∈ acc, p.transfers_count = (p.routes.length : ℤ) - 1 ∧
        p.is_interdepartmental = false) →
      ∀ p ∈ l.foldl (fun acc start_route =>
          (explore_route_path s dist dLine start_route destination_routes
            destination max_transfers
            { visited := [start_route.properties.codigo_de.getD ""]
              current_plan := RoutePlan.new
              all_plans := acc }).all_plans) acc,
        p.transfers_count = (p.routes.length : ℤ) - 1 ∧
          p.is_interdepartmental = false by
    exact h origin_routes [] (by simp)
  intro l
  induction l with
  | nil => exact fun acc hacc p hp => hacc p hp
  | cons r rest ih =>
      intro acc hacc p hp
      rw [List.foldl_cons] at hp
      refine ih _ ?_ p hp
      intro q hq
      obtain ⟨hv, new, ha, hl, hf, hmem⟩ :=
        explore_route_path_inv s dist dLine r destination_routes destination
          max_transfers
          { visited := [r.properties.codigo_de.getD ""]
            current_plan := RoutePlan.new
            all_plans := acc }
      rw [ha] at hq
      rcases List.mem_append.1 hq with h | h
      · exact hacc q h
      · obtain ⟨hc, hfq⟩ := hmem q h
        exact ⟨hc, hfq⟩

theorem find_all_possible_routes_ok (s : SpatialSearch) (dist : Pt → Pt → ℚ)
    (dLine : List Pt → Pt → ℚ)
    (origin_routes destination_routes : List (GeoJsonFeature RouteProperties))
    (origin destination : Pt) (max_transfers : ℤ) (plans : List RoutePlan)
    (h : find_all_possible_routes s dist dLine origin_routes
      destination_routes origin destination max_transfers = .ok plans) :
    plans = searchPlans s dist dLine origin_routes destination_routes
      destination max_transfers := by
  simp only [find_all_possible_routes] at h
  split at h
  · exact Except.noConfusion h
  · injection h with h'
    exact h'.symm

/-- Every plan in an `Ok` result of `find_routes_to_destination` comes
from the search loop over the two nearby-route candidate sets. -/
theorem find_routes_ok_sub (s : SpatialSearch) (dist : Pt → Pt → ℚ)
    (dLine : List Pt → Pt → ℚ) (origin destination : Pt)
    (max_transfers : ℤ) (max_route_distance : ℚ) (plans : List RoutePlan)
    (h : find_routes_to_destination s dist dLine origin destination
      max_transfers max_route_distance = .ok plans) :
    ∀ p ∈ plans,
      p ∈ searchPlans s dist dLine
        (find_nearby_routes s dist origin max_route_distance)
        (find_nearby_routes s dist destination max_route_distance)
        destination max_transfers := by
  simp only [find_routes_to_destination] at h
  split at h
  · exact Except.noConfusion h
  · split at h
    · exact Except.noConfusion h
    · split at h
      · exact Except.noConfusion h
      · rename_i plans0 heq
        injection h with h'
        subst h'
        intro p hp
        have hp1 := List.take_subset 3 _ hp
        have hp2 := (List.perm_insertionSort planLE plans0).mem_iff.1 hp1
        rw [find_all_possible_routes_ok s dist dLine _ _ _ _ _ _ heq] at hp2
        exact hp2

theorem optimize_results_mem (config : PlanningConfig)
    (validation : ValidationResult) (plans : List RoutePlan) :
    ∀ q ∈ optimize_results config validation plans,
      q ∈ plans ∨ q = RoutePlan.new := by
  intro q hq
  simp only [optimize_results, List.mem_map] at hq
  obtain ⟨e, he, rfl⟩ := hq
  exact List.getD_mem_or plans e.1 RoutePlan.new

/-! ## Claims C1, C2, C3, C5: the backtracking search and its plans -/

set_option maxRecDepth 2000

/-- **C1** (code bug, failing-input evaluation): the claim — every plan
returned by `find_routes_to_destination` has
`transfers_count ≤ max_transfers` and never repeats a route code — is
violated.  On the `sC1` dataset (whose `route_intersections` equal
`precalculate_intersections`, see `sC1_intersections_consistent`) with
`max_transfers = 1`, the destination branch of `explore_route_path`
appends a final segment without popping it, so the next alternative
inherits a leaked segment: the call returns a plan with
`transfers_count = 2 > 1` in which two distinct segments both carry
route code `"A"`. -/
theorem C1_bounds_violated_eval :
    ∃ plans, find_routes_to_destination sC1 distL1 dLineH (0, 0) (4, 0) 1
        (1/10) = .ok plans ∧
      ∃ p ∈ plans, (1 : ℤ) < p.transfers_count ∧
        ∃ i j : Fin p.routes.length, i ≠ j ∧
          (p.routes.get i).route.codigo_de = some "A" ∧
          (p.routes.get j).route.codigo_de = some "A" :=
  ⟨_, rfl, by decide⟩

/-- `sC1`'s adjacency map is exactly what the precomputation produces on
its routes and stops, so the `C1` run starts from a reachable state. -/
theorem sC1_intersections_consistent :
    precalculate_intersections sC1 distL1 = .ok sC1.route_intersections := by
  decide

/-- **C2** (counterexample): `explore_route_path` does *not* restore the
in-progress `RoutePlan` on return.  Entered with the empty plan
(`RoutePlan::new`) on the `sC3` dataset, it returns with a leaked
segment, a stale positive `total_distance` and a stale
`transfers_count`, while the entry plan was empty. -/
theorem C2_plan_not_restored_counterexample :
    (explore_route_path sC3 distL1 dLineH featA1 [featC3] (4, 0) 1
      { visited := ["A"], current_plan := RoutePlan.new,
        all_plans := [] }).current_plan.routes.length = 1 ∧
    (explore_route_path sC3 distL1 dLineH featA1 [featC3] (4, 0) 1
      { visited := ["A"], current_plan := RoutePlan.new,
        all_plans := [] }).current_plan.total_distance = 1/200 ∧
    (explore_route_path sC3 distL1 dLineH featA1 [featC3] (4, 0) 1
      { visited := ["A"], current_plan := RoutePlan.new,
        all_plans := [] }).current_plan.transfers_count = 1 ∧
    RoutePlan.new.routes.length = 0 ∧
    RoutePlan.new.total_distance = 0 ∧
    RoutePlan.new.transfers_count = 0 := by
  decide

/-- `sC3`'s adjacency map is exactly what the precomputation produces on
its routes and stops, so the `C2`/`C3` runs start from a reachable
state. -/
theorem sC3_intersections_consistent :
    precalculate_intersections sC3 distL1 = .ok sC3.route_intersections := by
  decide

/-- **C2 (amended)**: on return from `explore_route_path` the visited
set equals its entry value and the result list has only grown, but the
in-progress plan is *not* restored: its segment list is longer by
exactly one segment per plan emitted during the call (the destination
branch appends without popping), and the pop that does happen leaves
`total_distance` and `transfers_count` untouched
(`C2_plan_not_restored_counterexample` shows them stale). -/
theorem C2_visited_restored_plans_leak (s : SpatialSearch)
    (dist : Pt → Pt → ℚ) (dLine : List Pt → Pt → ℚ)
    (cur : GeoJsonFeature RouteProperties)
    (destination_routes : List (GeoJsonFeature RouteProperties))
    (destination : Pt) (transfers_left : ℤ) (st : SearchState) :
    (explore_route_path s dist dLine cur destination_routes destination
      transfers_left st).visited = st.visited ∧
    ∃ new,
      (explore_route_path s dist dLine cur destination_routes destination
        transfers_left st).all_plans = st.all_plans ++ new ∧
      (explore_route_path s dist dLine cur destination_routes destination
        transfers_left st).current_plan.routes.length =
        st.current_plan.routes.length + new.length := by
  obtain ⟨hv, new, ha, hl, -, -⟩ :=
    explore_route_path_inv s dist dLine cur destination_routes destination
      transfers_left st
  exact ⟨hv, new, ha, hl⟩

/-- **C3** (counterexample): a plan returned by
`find_routes_to_destination` whose `total_distance` differs from the sum
of its segments' `segment_distance` fields — the distance of a segment
appended and later popped during backtracking stays in the total. -/
theorem C3_total_distance_counterexample :
    ∃ plans, find_routes_to_destination sC3 distL1 dLineH (0, 0) (4, 0) 1
        (1/10) = .ok plans ∧
      ∃ p ∈ plans,
        p.total_distance ≠ (p.routes.map (·.segment_distance)).sum :=
  ⟨_, rfl, by decide⟩

/-- **C3 (amended)**: every plan returned by
`find_routes_to_destination` satisfies
`transfers_count = segments - 1` (that half of the aggregate invariant
is re-established by every `add_segment`); the `total_distance` half
fails (`C3_total_distance_counterexample`). -/
theorem C3_transfers_count_invariant (s : SpatialSearch)
    (dist : Pt → Pt → ℚ) (dLine : List Pt → Pt → ℚ)
    (origin destination : Pt) (max_transfers : ℤ)
    (max_route_distance : ℚ) (plans : List RoutePlan)
    (h : find_routes_to_destination s dist dLine origin destination
      max_transfers max_route_distance = .ok plans) :
    ∀ p ∈ plans, p.transfers_count = (p.routes.length : ℤ) - 1 :=
  fun p hp =>
    (searchPlans_mem _ _ _ _ _ _ _ p
      (find_routes_ok_sub _ _ _ _ _ _ _ _ h p hp)).1

theorem C3_transfers_count_invariant_witness :
    (plansC3run.getD 0 RoutePlan.new).transfers_count =
      ((plansC3run.getD 0 RoutePlan.new).routes.length : ℤ) - 1 :=
  C3_transfers_count_invariant sC3 distL1 dLineH (0, 0) (4, 0) 1 (1/10)
    plansC3run (by decide) _ (by decide)

/-- **C5** (counterexample): `plan_route` on the `plannerC5` dataset —
one route whose polyline vertices lie in the two departments `D1` and
`D2` — returns a plan traversing exactly that route with
`is_interdepartmental = false`, although `get_route_departments` finds
more than one department for it. -/
theorem C5_flag_counterexample :
    ∃ plans, plan_route rectContains rectRingDist distL1 dLineH plannerC5
        (0, 1/20) (2, 1/20) = .ok plans ∧
      1 < (get_route_departments rectContains vC5 featA1).length ∧
      ∃ p ∈ plans, p.routes.map (·.route) = [featA1.properties] ∧
        p.is_interdepartmental = false :=
  ⟨_, rfl, by decide, by decide⟩

/-- **C5 (amended)**: every plan returned by `plan_route` has
`is_interdepartmental = false`: `RoutePlan::new` initialises the flag to
`false` and no code path ever writes it (`get_route_departments` is
never called), so the flag reflects neither the departments touched by
the plan's routes (`C5_flag_counterexample`) nor — trivially — the
query's interdepartmental classification. -/
theorem C5_plan_flag_always_false (mpContains : MultiPolygon → Pt → Bool)
    (mpRingDist : MultiPolygon → Pt → ℚ) (dist : Pt → Pt → ℚ)
    (dLine : List Pt → Pt → ℚ) (planner : RoutePlanner)
    (origin destination : Pt) (out : List RoutePlan)
    (h : plan_route mpContains mpRingDist dist dLine planner origin
      destination = .ok out) :
    ∀ p ∈ out, p.is_interdepartmental = false := by
  simp only [plan_route] at h
  split at h
  · exact Except.noConfusion h
  · split at h
    · exact Except.noConfusion h
    · split at h
      · exact Except.noConfusion h
      · rename_i plans1 heq
        split at h
        · exact Except.noConfusion h
        · injection h with h'
          subst h'
          intro p hp
          have hp1 := List.take_subset planner.config.results_limit _ hp
          rcases optimize_results_mem _ _ _ p hp1 with hmem | rfl
          · have hsub := find_routes_ok_sub _ _ _ _ _ _ _ _ heq p hmem
            exact (searchPlans_mem _ _ _ _ _ _ _ p hsub).2
          · rfl

theorem C5_plan_flag_always_false_witness :
    (plansC5run.getD 0 RoutePlan.new).is_interdepartmental = false :=
  C5_plan_flag_always_false rectContains rectRingDist distL1 dLineH
    plannerC5 (0, 1/20) (2, 1/20) plansC5run (by decide) _ (by decide)

/-! ## Claim C4: the scoring formula -/

theorem foldl_add_map_sum {α : Type} (f : α → ℚ) :
    ∀ (l : List α) (init : ℚ),
      l.foldl (fun sc r => sc + f r) init = init + (l.map f).sum
  | [], init => by simp
  | x :: xs, init => by
      rw [List.foldl_cons, foldl_add_map_sum f xs, List.map_cons,
        List.sum_cons]
      ring

/-- **C4** (counterexample): the claimed score formula multiplies by
`0.8` whenever the plan's flag equals the query classification; the code
multiplies by `0.8` only when *both* are `true`.  For a plan and a query
that are both not interdepartmental the code leaves the base score `12`
unchanged while the claim demands `12 * 0.8`. -/
theorem C4_score_counterexample :
    calculate_plan_score PlanningConfig.default planC4 valC4 = 12 ∧
    claimedPlanScore PlanningConfig.default planC4 valC4 = 48/5 ∧
    calculate_plan_score PlanningConfig.default planC4 valC4 ≠
      claimedPlanScore PlanningConfig.default planC4 valC4 := by
  refine ⟨by decide, by decide, by decide⟩

/-- **C4 (amended)**: the score is the base
`transfers_count * 10 + total_distance / max_route_distance +
Σ tier penalty`, multiplied by `0.8` exactly when the query
classification *and* the plan flag are both interdepartmental, by `1.2`
exactly when the plan flag is set but the query classification is not,
and left unchanged otherwise (in particular when both flags agree on
`false`, where the claim demanded `0.8`). -/
theorem C4_score_formula (config : PlanningConfig) (plan : RoutePlan)
    (validation : ValidationResult) :
    calculate_plan_score config plan validation =
      ((plan.transfers_count : ℚ) * 10 +
        plan.total_distance / config.max_route_distance +
        (plan.routes.map fun r => tierPenalty r.transfer_type).sum) *
      (if validation.is_interdepartmental && plan.is_interdepartmental
       then 4/5
       else if !validation.is_interdepartmental && plan.is_interdepartmental
       then 6/5
       else 1) := by
  simp only [calculate_plan_score, foldl_add_map_sum]
  cases hv : validation.is_interdepartmental <;>
    cases hp : plan.is_interdepartmental <;> simp

/-! ## Claim C7: request widening and `distance_to_boundary` -/

theorem foldl_min_le_init : ∀ (l : List ℚ) (a : ℚ), l.foldl min a ≤ a
  | [], _ => le_refl _
  | x :: xs, a => (foldl_min_le_init xs (min a x)).trans (min_le_left a x)

theorem foldl_min_le_mem :
    ∀ (l : List ℚ) (a x : ℚ), x ∈ l → l.foldl min a ≤ x
  | x' :: xs, a, x, h => by
    rcases List.mem_cons.1 h with rfl | h
    · exact (foldl_min_le_init xs (min a x)).trans (min_le_right a x)
    · exact foldl_min_le_mem xs (min a x') x h

theorem foldl_min_mem_or :
    ∀ (l : List ℚ) (a : ℚ), l.foldl min a = a ∨ l.foldl min a ∈ l
  | [], a => Or.inl rfl
  | x :: xs, a => by
    rw [List.foldl_cons]
    rcases foldl_min_mem_or xs (min a x) with h | h
    · rcases min_cases a x with ⟨hm, -⟩ | ⟨hm, -⟩
      · left; rw [h, hm]
      · right; rw [h, hm]; exact List.mem_cons_self ..
    · right; exact List.mem_cons_of_mem _ h

theorem minQ?_le (l : List ℚ) (q : ℚ) (h : minQ? l = some q) :
    ∀ x ∈ l, q ≤ x := by
  cases l with
  | nil => exact fun x hx => absurd hx (List.not_mem_nil x)
  | cons a as =>
      injection h with h'
      subst h'
      intro x hx
      rcases List.mem_cons.1 hx with rfl | hx
      · exact foldl_min_le_init as x
      · exact foldl_min_le_mem as a x hx

theorem minQ?_mem (l : List ℚ) (q : ℚ) (h : minQ? l = some q) : q ∈ l := by
  cases l with
  | nil => exact absurd h (by simp [minQ?])
  | cons a as =>
      injection h with h'
      subst h'
      rcases foldl_min_mem_or as a with h | h
      · rw [h]; exact List.mem_cons_self ..
      · exact List.mem_cons_of_mem _ h

/-- **C7** (counterexample): the `1.2` widening is *not* applied exactly
when the origin lies within the configured `max_transfer_distance` of a
department boundary.  For the origin `(0, 0.05)` deep inside department
`D1`, the distance to every department boundary ring is at least
`0.01` (`0.95` and `1.5`), yet because `geo`'s point-to-polygon distance
is `0` for a contained point the code computes
`distance_to_boundary = 0 < 0.01` and multiplies: the request carries
`0.05 * 1.5 * 1.2 = 0.09` instead of the claimed `0.05 * 1.5 = 0.075`. -/
theorem C7_widening_counterexample :
    ∃ v, validate_route rectContains rectRingDist vC5 (0, 1/20)
        (2, 1/20) = .ok v ∧
      (∀ dept ∈ vC5.departments,
        PlanningConfig.default.max_transfer_distance ≤
          rectRingDist dept.boundary (0, 1/20)) ∧
      v.distance_to_boundary = 0 ∧
      (create_route_request PlanningConfig.default (0, 1/20) (2, 1/20)
        v).max_route_distance = 9/100 ∧
      PlanningConfig.default.max_route_distance * (3/2) = 3/40 ∧
      (9 : ℚ)/100 ≠ 3/40 :=
  ⟨_, rfl, by decide, by decide, by decide, by decide, by decide⟩

/-- **C7 (amended)**: `create_route_request` multiplies both thresholds
by `1.5` exactly when the validated pair is interdepartmental and
`max_route_distance` further by `1.2` exactly when
`validation.distance_to_boundary` is strictly below the *configured*
`max_transfer_distance`; and `validate_route`'s `distance_to_boundary`
is the minimum over departments of `geo`'s point-to-polygon Euclidean
distance from the *origin* (`mpDist`), which is `0` — not the distance
to the nearest boundary ring — whenever some department contains the
origin.  Hence for any in-country origin the `1.2` widening fires
whenever `max_transfer_distance` is positive
(`C7_widening_counterexample`). -/
theorem C7_request_widening (config : PlanningConfig)
    (origin destination : Pt) (validation : ValidationResult)
    (mpContains : MultiPolygon → Pt → Bool)
    (mpRingDist : MultiPolygon → Pt → ℚ) (v : GeoValidator)
    (res : ValidationResult)
    (hval : validate_route mpContains mpRingDist v origin destination =
      .ok res) :
    ((create_route_request config origin destination
        validation).max_route_distance =
      config.max_route_distance *
        (if validation.is_interdepartmental then 3/2 else 1) *
        (if validation.distance_to_boundary < config.max_transfer_distance
         then 6/5 else 1) ∧
     (create_route_request config origin destination
        validation).max_transfer_distance =
      config.max_transfer_distance *
        (if validation.is_interdepartmental then 3/2 else 1)) ∧
    (res.distance_to_boundary =
      (minQ? (v.departments.map fun dept =>
        mpDist mpContains mpRingDist dept.boundary origin)).getD f64MAX ∧
     ((∀ mp q, 0 ≤ mpRingDist mp q) →
       ∀ dept ∈ v.departments, mpContains dept.boundary origin = true →
         res.distance_to_boundary = 0)) := by
  constructor
  · simp only [create_route_request]
    cases hi : validation.is_interdepartmental <;>
      by_cases hd : validation.distance_to_boundary <
        config.max_transfer_distance <;>
      simp [hi, hd]
  · simp only [validate_route, bind, Except.bind] at hval
    split at hval
    · exact Except.noConfusion hval
    · split at hval
      · exact Except.noConfusion hval
      · injection hval with hval'
        subst hval'
        constructor
        · rfl
        · intro hnonneg dept hdept hcont
          have hmem0 : (0 : ℚ) ∈ v.departments.map fun dept =>
              mpDist mpContains mpRingDist dept.boundary origin := by
            refine List.mem_map.2 ⟨dept, hdept, ?_⟩
            simp [mpDist, hcont]
          rcases hq : minQ? (v.departments.map fun dept =>
              mpDist mpContains mpRingDist dept.boundary origin) with _ | q
          · cases hl : v.departments.map fun dept =>
                mpDist mpContains mpRingDist dept.boundary origin with
            | nil => rw [hl] at hmem0; exact absurd hmem0 (List.not_mem_nil _)
            | cons a as => rw [hl] at hq; simp [minQ?] at hq
          · have hle := minQ?_le _ q hq 0 hmem0
            have hmm := minQ?_mem _ q hq
            rcases List.mem_map.1 hmm with ⟨d2, -, hd2⟩
            have hge : 0 ≤ q := by
              rw [← hd2]
              unfold mpDist
              split
              · exact le_refl 0
              · exact hnonneg _ _
            show (minQ? _).getD f64MAX = 0
            rw [hq]
            exact le_antisymm (by simpa using hle) hge

theorem rectRingDist_nonneg (mp : MultiPolygon) (p : Pt) :
    0 ≤ rectRingDist mp p := by
  unfold rectRingDist
  split
  · rename_i x0 y0 x1 u1 u2 y1 u3 u4
    dsimp only
    split
    · rename_i hxy
      have hx1 : x0 - p.1 ≤ 0 := le_of_le_of_eq (le_max_left ..) hxy.1
      have hx2 : p.1 - x1 ≤ 0 :=
        le_of_le_of_eq ((le_max_right 0 _).trans (le_max_right ..)) hxy.1
      have hy1 : y0 - p.2 ≤ 0 := le_of_le_of_eq (le_max_left ..) hxy.2
      have hy2 : p.2 - y1 ≤ 0 :=
        le_of_le_of_eq ((le_max_right 0 _).trans (le_max_right ..)) hxy.2
      refine le_min (le_min ?_ ?_) (le_min ?_ ?_) <;> linarith
    · have h1 : (0:ℚ) ≤ max (x0 - p.1) (max 0 (p.1 - x1)) :=
        le_trans (le_max_left 0 _) (le_max_right ..)
      have h2 : (0:ℚ) ≤ max (y0 - p.2) (max 0 (p.2 - y1)) :=
        le_trans (le_max_left 0 _) (le_max_right ..)
      linarith
  · exact le_refl 0

theorem C7_request_widening_witness : valC7run.distance_to_boundary = 0 :=
  (C7_request_widening PlanningConfig.default (0, 1/20) (2, 1/20) valC4
      rectContains rectRingDist vC5 valC7run (by decide)).2.2
    (fun mp q => rectRingDist_nonneg mp q)
    { name := "D1", boundary := rectMP (-1) (-1) 1 1 }
    (by decide) (by decide)

/-! ## Claim C8: the error characterisation of the search -/

theorem find_nearby_routes_eq_nil_iff (s : SpatialSearch)
    (dist : Pt → Pt → ℚ) (p : Pt) (d : ℚ) :
    find_nearby_routes s dist p d = [] ↔ ¬ NearbyExists s dist p d := by
  unfold find_nearby_routes NearbyExists
  rw [List.filter_eq_nil_iff]
  constructor
  · rintro h ⟨r, hr, coords, hg, c, hc, hle⟩
    have hthis := h r hr
    rw [hg] at hthis
    refine hthis ?_
    show coords.any (fun coord => decide (dist coord p ≤ d)) = true
    simp only [List.any_eq_true, decide_eq_true_eq]
    exact ⟨c, hc, hle⟩
  · intro h r hr hpred
    rcases hgeo : r.geometry with _ | coords | _ | _ | _ <;>
      rw [hgeo] at hpred
    case lineString =>
      replace hpred : coords.any
          (fun coord => decide (dist coord p ≤ d)) = true := hpred
      simp only [List.any_eq_true, decide_eq_true_eq] at hpred
      obtain ⟨c, hc, hle⟩ := hpred
      exact h ⟨r, hr, coords, hgeo, c, hc, hle⟩
    all_goals exact Bool.noConfusion hpred

/-- **C8**: `find_routes_to_destination` fails with `NoRoutesNearOrigin`
exactly when no route polyline has a vertex within `max_route_distance`
of the origin (checked first); with `NoRoutesNearDestination` exactly
when the origin candidate set is non-empty but no polyline vertex is
within range of the destination; and with `NoValidPath` exactly when
both candidate sets are non-empty but the search loop accumulates no
plan. -/
theorem C8_error_characterisation (s : SpatialSearch)
    (dist : Pt → Pt → ℚ) (dLine : List Pt → Pt → ℚ)
    (origin destination : Pt) (max_transfers : ℤ)
    (max_route_distance : ℚ) :
    (find_routes_to_destination s dist dLine origin destination
        max_transfers max_route_distance =
        .error .NoRoutesNearOrigin ↔
      ¬ NearbyExists s dist origin max_route_distance) ∧
    (find_routes_to_destination s dist dLine origin destination
        max_transfers max_route_distance =
        .error .NoRoutesNearDestination ↔
      NearbyExists s dist origin max_route_distance ∧
        ¬ NearbyExists s dist destination max_route_distance) ∧
    (find_routes_to_destination s dist dLine origin destination
        max_transfers max_route_distance = .error .NoValidPath ↔
      NearbyExists s dist origin max_route_distance ∧
        NearbyExists s dist destination max_route_distance ∧
        searchPlans s dist dLine
          (find_nearby_routes s dist origin max_route_distance)
          (find_nearby_routes s dist destination max_route_distance)
          destination max_transfers = []) := by
  have ho := find_nearby_routes_eq_nil_iff s dist origin max_route_distance
  have hd := find_nearby_routes_eq_nil_iff s dist destination
    max_route_distance
  by_cases h1 : find_nearby_routes s dist origin max_route_distance = []
  · have hres : find_routes_to_destination s dist dLine origin destination
        max_transfers max_route_distance = .error .NoRoutesNearOrigin := by
      simp only [find_routes_to_destination, if_pos h1]
    have hno := ho.1 h1
    rw [hres]
    refine ⟨by simp [hno], ?_, ?_⟩
    · simp only [show (Except.error SearchError.NoRoutesNearOrigin :
        Except SearchError (List RoutePlan)) ≠
        .error .NoRoutesNearDestination by simp, false_iff]
      rintro ⟨hyes, -⟩
      exact hno hyes
    · simp only [show (Except.error SearchError.NoRoutesNearOrigin :
        Except SearchError (List RoutePlan)) ≠
        .error .NoValidPath by simp, false_iff]
      rintro ⟨hyes, -, -⟩
      exact hno hyes
  · have hyeso : NearbyExists s dist origin max_route_distance := by
      by_contra hc
      exact h1 (ho.2 hc)
    by_cases h2 : find_nearby_routes s dist destination
        max_route_distance = []
    · have hres : find_routes_to_destination s dist dLine origin
          destination max_transfers max_route_distance =
          .error .NoRoutesNearDestination := by
        simp only [find_routes_to_destination, if_neg h1, if_pos h2]
      have hnd := hd.1 h2
      rw [hres]
      refine ⟨by simp [hyeso], by simp [hyeso, hnd], ?_⟩
      simp only [show (Except.error SearchError.NoRoutesNearDestination :
        Except SearchError (List RoutePlan)) ≠
        .error .NoValidPath by simp, false_iff]
      rintro ⟨-, hyes, -⟩
      exact hnd hyes
    · have hyesd : NearbyExists s dist destination max_route_distance := by
        by_contra hc
        exact h2 (hd.2 hc)
      by_cases h3 : searchPlans s dist dLine
          (find_nearby_routes s dist origin max_route_distance)
          (find_nearby_routes s dist destination max_route_distance)
          destination max_transfers = []
      · have hres : find_routes_to_destination s dist dLine origin
            destination max_transfers max_route_distance =
            .error .NoValidPath := by
          simp only [find_routes_to_destination, if_neg h1, if_neg h2,
            find_all_possible_routes, if_pos h3]
        rw [hres]
        refine ⟨by simp [hyeso], by simp [hyesd, hyeso], ?_⟩
        simp [hyeso, hyesd, h3]
      · have hres : find_routes_to_destination s dist dLine origin
            destination max_transfers max_route_distance =
            .ok ((List.insertionSort planLE (searchPlans s dist dLine
              (find_nearby_routes s dist origin max_route_distance)
              (find_nearby_routes s dist destination max_route_distance)
              destination max_transfers)).take 3) := by
          simp only [find_routes_to_destination, if_neg h1, if_neg h2,
            find_all_possible_routes, if_neg h3]
        rw [hres]
        refine ⟨by simp [hyeso], by simp [hyeso, hyesd], ?_⟩
        simp only [show ∀ x, (Except.ok x :
          Except SearchError (List RoutePlan)) ≠ .error .NoValidPath by
            intro x; simp, false_iff]
        rintro ⟨-, -, hnil⟩
        exact h3 hnil

/-! ## Claim C9: `validate_point` -/

theorem find?_first {α : Type} (pred : α → Bool) (a : α) (post : List α) :
    ∀ pre : List α, (∀ x ∈ pre, pred x = false) → pred a = true →
      List.find? pred (pre ++ a :: post) = some a
  | [], _, ha => by simp [List.find?_cons_of_pos, ha]
  | x :: xs, hpre, ha => by
      rw [List.cons_append, List.find?_cons_of_neg, find?_first pred a post
        xs (fun y hy => hpre y (List.mem_cons_of_mem x hy)) ha]
      simp [hpre x (List.mem_cons_self ..)]

/-- **C9**: `validate_point` returns `Ok(Some name)` of the first
department in input order whose boundary contains the point; when no
department contains it, it returns `Ok None` exactly when the minimum
distance from the point to a department is strictly below the
near-boundary threshold `0.01`, and fails with `OutsideCountry`
otherwise — in particular it fails for every point outside all
departments at distance at least `0.01` from every department boundary
(also with no departments at all), and it returns the department's name
for every point contained in exactly one department. -/
theorem C9_validate_point (mpContains : MultiPolygon → Pt → Bool)
    (mpRingDist : MultiPolygon → Pt → ℚ) (v : GeoValidator) (p : Pt) :
    (∀ (dept : DepartmentBoundary) (pre post : List DepartmentBoundary),
      v.departments = pre ++ dept :: post →
      (∀ d2 ∈ pre, mpContains d2.boundary p = false) →
      mpContains dept.boundary p = true →
      validate_point mpContains mpRingDist v p = .ok (some dept.name)) ∧
    ((∀ dept ∈ v.departments, mpContains dept.boundary p = false) →
      ((∃ q, minQ? (v.departments.map fun dept =>
          mpRingDist dept.boundary p) = some q ∧ q < 1/100) →
        validate_point mpContains mpRingDist v p = .ok none) ∧
      ((∀ dept ∈ v.departments, 1/100 ≤ mpRingDist dept.boundary p) →
        validate_point mpContains mpRingDist v p =
          .error .OutsideCountry)) ∧
    (∀ dept ∈ v.departments, mpContains dept.boundary p = true →
      (∀ dept2 ∈ v.departments, mpContains dept2.boundary p = true →
        dept2 = dept) →
      validate_point mpContains mpRingDist v p = .ok (some dept.name)) := by
  refine ⟨?_, ?_, ?_⟩
  · intro dept pre post hsplit hpre hdept
    unfold validate_point
    rw [hsplit, find?_first _ dept post pre hpre hdept]
  · intro hnone
    have hfind : v.departments.find?
        (fun dept => mpContains dept.boundary p) = none :=
      List.find?_eq_none.2 (fun x hx => by simp [hnone x hx])
    have hmap : (v.departments.map fun dept =>
        mpDist mpContains mpRingDist dept.boundary p) =
        v.departments.map fun dept => mpRingDist dept.boundary p :=
      List.map_congr_left (fun dept hdept => by
        simp [mpDist, hnone dept hdept])
    constructor
    · rintro ⟨q, hq, hlt⟩
      unfold validate_point
      rw [hfind]
      show (if (minQ? (v.departments.map fun dept =>
          mpDist mpContains mpRingDist dept.boundary p)).getD f64MAX <
          1/100 then (.ok none : Except ValidationError (Option String))
        else .error .OutsideCountry) = .ok none
      rw [hmap, hq, Option.getD_some, if_pos hlt]
    · intro hfar
      unfold validate_point
      rw [hfind]
      show (if (minQ? (v.departments.map fun dept =>
          mpDist mpContains mpRingDist dept.boundary p)).getD f64MAX <
          1/100 then (.ok none : Except ValidationError (Option String))
        else .error .OutsideCountry) = .error .OutsideCountry
      rw [hmap]
      rcases hq : minQ? (v.departments.map fun dept =>
          mpRingDist dept.boundary p) with _ | q
      · rw [hq, Option.getD_none, if_neg (by norm_num [f64MAX])]
      · rw [hq, Option.getD_some]
        have hqmem := minQ?_mem _ q hq
        rcases List.mem_map.1 hqmem with ⟨dept, hdept, rfl⟩
        rw [if_neg (not_lt.2 (hfar dept hdept))]
  · intro dept hmem hdept huniq
    unfold validate_point
    rcases hfind : v.departments.find?
        (fun d => mpContains d.boundary p) with _ | d'
    · exact absurd (List.find?_eq_none.1 hfind dept hmem (by simp [hdept]))
        (by simp)
    · have hd'mem := List.mem_of_find?_eq_some hfind
      have hd'pred := List.find?_some hfind
      have hded : d' = dept := huniq d' hd'mem (by simpa using hd'pred)
      rw [hfind]
      show Except.ok (some d'.name) = .ok (some dept.name)
      rw [hded]

theorem C9_validate_point_witness :
    validate_point rectContains rectRingDist vC5 (0, 1/20) =
      .ok (some "D1") :=
  (C9_validate_point rectContains rectRingDist vC5 (0, 1/20)).2.2
    { name := "D1", boundary := rectMP (-1) (-1) 1 1 }
    (by decide) (by decide) (by decide)

/-! ## Claim C10: the coordinate `unwrap` in `find_direct_transfer` -/

theorem directScan_total (r1 r2 : GeoJsonFeature RouteProperties)
    (stops2 : List BusStopProperties) :
    ∀ stops1 : List BusStopProperties,
      (∀ b ∈ stops1, b.latitud.isSome ∧ b.longitud.isSome) →
      ∃ o, directScan r1 r2 stops1 stops2 = .ok o
  | [], _ => ⟨none, rfl⟩
  | s1 :: rest, h => by
      unfold directScan
      split
      · obtain ⟨hla, hlo⟩ := h s1 (List.mem_cons_self ..)
        rcases hlov : s1.longitud with _ | lo
        · rw [hlov] at hlo; exact absurd hlo (by simp)
        · rcases hlav : s1.latitud with _ | la
          · rw [hlav] at hla; exact absurd hla (by simp)
          · exact ⟨_, rfl⟩
      · exact directScan_total r1 r2 stops2 rest
          (fun b hb => h b (List.mem_cons_of_mem s1 hb))

theorem lookup_mem {β : Type} :
    ∀ (l : List (String × β)) (k : String) (v : β),
      l.lookup k = some v → (k, v) ∈ l
  | (k', v') :: es, k, v, h => by
      simp only [List.lookup] at h
      split at h
      · rename_i hb
        injection h with h'
        subst h'
        have hk : k = k' := eq_of_beq hb
        rw [hk]
        exact List.mem_cons_self ..
      · exact List.mem_cons_of_mem _ (lookup_mem es k v h)

theorem find_direct_transfer_total (s : SpatialSearch)
    (r1 r2 : GeoJsonFeature RouteProperties)
    (hs : ∀ entry ∈ s.bus_stops,
      ∀ b ∈ entry.2, b.latitud.isSome ∧ b.longitud.isSome) :
    ∃ o, find_direct_transfer s r1 r2 = .ok o := by
  unfold find_direct_transfer
  rcases h1 : s.bus_stops.lookup (codeOf r1) with _ | stops1
  · exact ⟨none, rfl⟩
  · rcases h2 : s.bus_stops.lookup (codeOf r2) with _ | stops2
    · exact ⟨none, rfl⟩
    · exact directScan_total r1 r2 stops2 stops1
        (hs _ (lookup_mem _ _ _ h1))

theorem find_best_transfer_total (s : SpatialSearch) (dist : Pt → Pt → ℚ)
    (r1 r2 : GeoJsonFeature RouteProperties)
    (hs : ∀ entry ∈ s.bus_stops,
      ∀ b ∈ entry.2, b.latitud.isSome ∧ b.longitud.isSome) :
    ∃ o, find_best_transfer s dist r1 r2 = .ok o := by
  obtain ⟨o, ho⟩ := find_direct_transfer_total s r1 r2 hs
  unfold find_best_transfer
  rw [show (do
      match ← find_direct_transfer s r1 r2 with
      | some transfer => pure (some transfer)
      | none =>
          match find_near_transfer s dist r1 r2 (1/200) with
          | some transfer => pure (some transfer)
          | none => pure (find_proximate_transfer dist r1 r2 (1/100)) :
      Except Unit (Option TransferPoint)) =
    (find_direct_transfer s r1 r2).bind (fun x =>
      match x with
      | some transfer => pure (some transfer)
      | none =>
          match find_near_transfer s dist r1 r2 (1/200) with
          | some transfer => pure (some transfer)
          | none => pure (find_proximate_transfer dist r1 r2 (1/100)))
    from rfl, ho]
  rcases o with _ | t
  · rcases find_near_transfer s dist r1 r2 (1/200) with _ | t2
    · exact ⟨_, rfl⟩
    · exact ⟨_, rfl⟩
  · exact ⟨_, rfl⟩

theorem foldlM_total {α β : Type} (f : β → α → Except Unit β)
    (hf : ∀ b a, ∃ r, f b a = .ok r) :
    ∀ (l : List α) (b : β), ∃ r, List.foldlM f b l = .ok r
  | [], b => ⟨b, rfl⟩
  | x :: xs, b => by
      obtain ⟨r1, hr1⟩ := hf b x
      obtain ⟨r2, hr2⟩ := foldlM_total f hf xs r1
      refine ⟨r2, ?_⟩
      rw [List.foldlM_cons, hr1]
      exact hr2

theorem mapM_total {α β : Type} (f : α → Except Unit β) :
    ∀ l : List α, (∀ x ∈ l, ∃ r, f x = .ok r) → ∃ rs, l.mapM f = .ok rs
  | [], _ => ⟨[], rfl⟩
  | x :: xs, h => by
      obtain ⟨r1, hr1⟩ := h x (List.mem_cons_self ..)
      obtain ⟨rs, hrs⟩ :=
        mapM_total f xs (fun y hy => h y (List.mem_cons_of_mem x hy))
      refine ⟨r1 :: rs, ?_⟩
      rw [List.mapM_cons, hr1]
      show (List.mapM f xs).bind _ = _
      rw [hrs]
      rfl

theorem routeNeighbors_total (s : SpatialSearch) (dist : Pt → Pt → ℚ)
    (code : String) (r1 : GeoJsonFeature RouteProperties)
    (hs : ∀ entry ∈ s.bus_stops,
      ∀ b ∈ entry.2, b.latitud.isSome ∧ b.longitud.isSome) :
    ∃ l, routeNeighbors s dist code r1 = .ok l := by
  unfold routeNeighbors
  refine foldlM_total _ ?_ _ []
  intro acc other
  dsimp only
  split
  · exact ⟨acc, rfl⟩
  · cases hlk : s.routes.lookup other with
    | none => exact ⟨acc, rfl⟩
    | some route2 =>
        obtain ⟨o, ho⟩ := find_best_transfer_total s dist r1 route2 hs
        show ∃ r, (find_best_transfer s dist r1 route2) >>= (fun x =>
          match x with
          | some transfer => pure (acc ++ [transfer])
          | none => pure acc) = .ok r
        rw [ho]
        rcases o with _ | t
        · exact ⟨acc, rfl⟩
        · exact ⟨acc ++ [t], rfl⟩

theorem precalculate_intersections_total (s : SpatialSearch)
    (dist : Pt → Pt → ℚ)
    (hs : ∀ entry ∈ s.bus_stops,
      ∀ b ∈ entry.2, b.latitud.isSome ∧ b.longitud.isSome) :
    ∃ m, precalculate_intersections s dist = .ok m := by
  unfold precalculate_intersections
  refine mapM_total _ s.routes ?_
  intro entry hmem
  obtain ⟨l, hl⟩ := routeNeighbors_total s dist entry.1 entry.2 hs
  refine ⟨(entry.1, l), ?_⟩
  show (routeNeighbors s dist entry.1 entry.2) >>= (fun r =>
    pure (entry.1, r)) = _
  rw [hl]
  rfl

/-- **C10**: in the Direct-tier check the optional stop coordinates are
compared before being unwrapped, so two stops with absent latitude and
absent longitude compare as exactly matching and the unwrap panics
(modelled as `.error ()`), as the concrete `sC10` dataset shows; under
the precondition that every stop grouped under a route code has both
coordinates present, `find_direct_transfer` never reaches the panic and
the whole precomputation is total. -/
theorem C10_direct_transfer_panic :
    find_direct_transfer sC10 featR1 featR2 = .error () ∧
    (∀ (s : SpatialSearch) (r1 r2 : GeoJsonFeature RouteProperties),
      (∀ entry ∈ s.bus_stops,
        ∀ b ∈ entry.2, b.latitud.isSome ∧ b.longitud.isSome) →
      ∃ o, find_direct_transfer s r1 r2 = .ok o) ∧
    (∀ (s : SpatialSearch) (dist : Pt → Pt → ℚ),
      (∀ entry ∈ s.bus_stops,
        ∀ b ∈ entry.2, b.latitud.isSome ∧ b.longitud.isSome) →
      ∃ m, precalculate_intersections s dist = .ok m) :=
  ⟨by decide,
   fun s r1 r2 hs => find_direct_transfer_total s r1 r2 hs,
   fun s dist hs => precalculate_intersections_total s dist hs⟩

theorem C10_direct_transfer_panic_witness :
    (∀ entry ∈ sC1.bus_stops,
      ∀ b ∈ entry.2, b.latitud.isSome ∧ b.longitud.isSome) ∧
    (∃ o, find_direct_transfer sC1 featA1 featB1 = .ok o) ∧
    (∃ m, precalculate_intersections sC1 distL1 = .ok m) :=
  ⟨by decide,
   C10_direct_transfer_panic.2.1 sC1 featA1 featB1 (by decide),
   C10_direct_transfer_panic.2.2 sC1 distL1 (by decide)⟩

/-! ## Claim C6: the transfer-tier priority of `find_best_transfer`

The Near/Proximate loops share one shape, abstracted by `genStep`: the
fold keeps the pair of the best transfer point found so far and its
distance, starting from `(none, max_distance)`, and a candidate replaces
it only when strictly closer.  The lemmas below establish the generic
properties of that fold (the running distance never increases, the
result is no farther than any offered candidate, an accumulator no
candidate beats survives unchanged, a `some` best is never lost, and the
result is either the initial accumulator or an offered candidate that
beat it), and then transport them to `find_near_transfer` and
`find_proximate_transfer` through the pointwise equalities
`nearStep_eq_genStep` / `proxStep_eq_genStep` and the
nested-loop-to-pair-list identity `foldl_nested_eq_flat`. -/

theorem genStep_snd_le {σ : Type} (cand : σ → Option (TransferPoint × ℚ))
    (acc : Option TransferPoint × ℚ) (x : σ) :
    (genStep cand acc x).2 ≤ acc.2 := by
  rcases hc : cand x with _ | ⟨tp, d⟩
  · simp only [genStep, hc]
    exact le_refl _
  · simp only [genStep, hc]
    split
    · exact le_of_lt (by assumption)
    · exact le_refl _

theorem foldl_genStep_snd_le {σ : Type} (cand : σ → Option (TransferPoint × ℚ)) :
    ∀ (l : List σ) (acc : Option TransferPoint × ℚ),
      (l.foldl (genStep cand) acc).2 ≤ acc.2
  | [], _ => le_refl _
  | x :: xs, acc =>
      le_trans (foldl_genStep_snd_le cand xs (genStep cand acc x))
        (genStep_snd_le cand acc x)

theorem foldl_genStep_le_cand {σ : Type} (cand : σ → Option (TransferPoint × ℚ)) :
    ∀ (l : List σ) (acc : Option TransferPoint × ℚ) (x : σ)
      (tp : TransferPoint) (d : ℚ),
      x ∈ l → cand x = some (tp, d) → (l.foldl (genStep cand) acc).2 ≤ d
  | [], _, _, _, _, hx, _ => absurd hx (List.not_mem_nil _)
  | y :: ys, acc, x, tp, d, hx, hc => by
      rcases List.mem_cons.1 hx with rfl | hx'
      · refine le_trans (foldl_genStep_snd_le cand ys (genStep cand acc x)) ?_
        simp only [genStep, hc]
        split
        · exact le_refl d
        · exact le_of_not_lt (by assumption)
      · exact foldl_genStep_le_cand cand ys (genStep cand acc y) x tp d hx' hc

theorem genStep_eq_self {σ : Type} (cand : σ → Option (TransferPoint × ℚ))
    (acc : Option TransferPoint × ℚ) (x : σ)
    (h : ∀ tp d, cand x = some (tp, d) → acc.2 ≤ d) :
    genStep cand acc x = acc := by
  rcases hc : cand x with _ | ⟨tp, d⟩ <;> simp only [genStep, hc]
  rw [if_neg (not_lt.2 (h tp d hc))]

theorem foldl_genStep_unchanged {σ : Type} (cand : σ → Option (TransferPoint × ℚ)) :
    ∀ (l : List σ) (acc : Option TransferPoint × ℚ),
      (∀ x ∈ l, ∀ tp d, cand x = some (tp, d) → acc.2 ≤ d) →
      l.foldl (genStep cand) acc = acc
  | [], _, _ => rfl
  | x :: xs, acc, h => by
      have hx : genStep cand acc x = acc :=
        genStep_eq_self cand acc x (h x (List.mem_cons_self ..))
      show xs.foldl (genStep cand) (genStep cand acc x) = acc
      rw [hx]
      exact foldl_genStep_unchanged cand xs acc
        (fun y hy => h y (List.mem_cons_of_mem x hy))

theorem genStep_fst_some {σ : Type} (cand : σ → Option (TransferPoint × ℚ))
    (acc : Option TransferPoint × ℚ) (x : σ) (t : TransferPoint)
    (h : acc.1 = some t) : ∃ u, (genStep cand acc x).1 = some u := by
  rcases hc : cand x with _ | ⟨tp, d⟩ <;> simp only [genStep, hc]
  · exact ⟨t, h⟩
  · split
    · exact ⟨tp, rfl⟩
    · exact ⟨t, h⟩

theorem foldl_genStep_fst_some {σ : Type} (cand : σ → Option (TransferPoint × ℚ)) :
    ∀ (l : List σ) (acc : Option TransferPoint × ℚ) (t : TransferPoint),
      acc.1 = some t → ∃ u, (l.foldl (genStep cand) acc).1 = some u
  | [], _, t, h => ⟨t, h⟩
  | x :: xs, acc, t, h => by
      obtain ⟨u, hu⟩ := genStep_fst_some cand acc x t h
      exact foldl_genStep_fst_some cand xs (genStep cand acc x) u hu

theorem genStep_none_eq {σ : Type} (cand : σ → Option (TransferPoint × ℚ))
    (acc : Option TransferPoint × ℚ) (x : σ)
    (h : (genStep cand acc x).1 = none) : genStep cand acc x = acc := by
  rcases hc : cand x with _ | ⟨tp, d⟩ <;> simp only [genStep, hc] at h ⊢
  by_cases hd : d < acc.2
  · rw [if_pos hd] at h
    exact absurd h (by simp)
  · rw [if_neg hd]

theorem foldl_genStep_none_eq {σ : Type} (cand : σ → Option (TransferPoint × ℚ)) :
    ∀ (l : List σ) (acc : Option TransferPoint × ℚ),
      (l.foldl (genStep cand) acc).1 = none → l.foldl (genStep cand) acc = acc
  | [], _, _ => rfl
  | x :: xs, acc, h => by
      have h' : (xs.foldl (genStep cand) (genStep cand acc x)).1 = none := h
      have hfst : (genStep cand acc x).1 = none := by
        rcases hs : (genStep cand acc x).1 with _ | t
        · rfl
        · obtain ⟨u, hu⟩ := foldl_genStep_fst_some cand xs _ t hs
          rw [hu] at h'
          exact absurd h' (by simp)
      have hstep := genStep_none_eq cand acc x hfst
      show xs.foldl (genStep cand) (genStep cand acc x) = acc
      rw [hstep]
      rw [hstep] at h'
      exact foldl_genStep_none_eq cand xs acc h'

theorem foldl_genStep_fires {σ : Type} (cand : σ → Option (TransferPoint × ℚ))
    (l : List σ) (acc : Option TransferPoint × ℚ)
    (h : ∃ x ∈ l, ∃ tp d, cand x = some (tp, d) ∧ d < acc.2) :
    ∃ u, (l.foldl (genStep cand) acc).1 = some u := by
  rcases hr : (l.foldl (genStep cand) acc).1 with _ | t
  · exfalso
    obtain ⟨x, hx, tp, d, hc, hd⟩ := h
    have heq := foldl_genStep_none_eq cand l acc hr
    have hle := foldl_genStep_le_cand cand l acc x tp d hx hc
    rw [heq] at hle
    exact absurd hd (not_lt.2 hle)
  · exact ⟨t, rfl⟩

theorem genStep_shape {σ : Type} (cand : σ → Option (TransferPoint × ℚ))
    (acc : Option TransferPoint × ℚ) (x : σ) :
    genStep cand acc x = acc ∨
      ∃ tp d, cand x = some (tp, d) ∧
        genStep cand acc x = (some tp, d) ∧ d < acc.2 := by
  rcases hc : cand x with _ | ⟨tp, d⟩
  · left
    simp only [genStep, hc]
  · by_cases hd : d < acc.2
    · right
      exact ⟨tp, d, rfl, by simp only [genStep, hc]; rw [if_pos hd], hd⟩
    · left
      simp only [genStep, hc]
      rw [if_neg hd]

theorem foldl_genStep_shape {σ : Type} (cand : σ → Option (TransferPoint × ℚ)) :
    ∀ (l : List σ) (acc : Option TransferPoint × ℚ),
      l.foldl (genStep cand) acc = acc ∨
        ∃ x ∈ l, ∃ tp d, cand x = some (tp, d) ∧
          l.foldl (genStep cand) acc = (some tp, d) ∧ d < acc.2
  | [], _ => Or.inl rfl
  | x :: xs, acc => by
      rcases foldl_genStep_shape cand xs (genStep cand acc x) with
        heq | ⟨y, hy, tp, d, hc, heq, hd⟩
      · rcases genStep_shape cand acc x with h1 | ⟨tp, d, hc, h1, hd⟩
        · left
          show xs.foldl (genStep cand) (genStep cand acc x) = acc
          rw [heq, h1]
        · right
          refine ⟨x, List.mem_cons_self .., tp, d, hc, ?_, hd⟩
          show xs.foldl (genStep cand) (genStep cand acc x) = (some tp, d)
          rw [heq, h1]
      · right
        exact ⟨y, List.mem_cons_of_mem x hy, tp, d, hc, heq,
          lt_of_lt_of_le hd (genStep_snd_le cand acc x)⟩

theorem foldl_nested_eq_flat {α β γ : Type} (g : γ → α → β → γ) :
    ∀ (l1 : List α) (l2 : List β) (c : γ),
      l1.foldl (fun acc x => l2.foldl (fun acc y => g acc x y) acc) c =
        (l1.flatMap fun x => l2.map fun y => (x, y)).foldl
          (fun acc p => g acc p.1 p.2) c
  | [], _, _ => rfl
  | x :: xs, l2, c => by
      rw [List.foldl_cons, List.flatMap_cons, List.foldl_append, List.foldl_map]
      exact foldl_nested_eq_flat g xs l2 _

theorem nearStep_eq_genStep (dist : Pt → Pt → ℚ) (r1c r2c : String)
    (acc : Option TransferPoint × ℚ)
    (p : BusStopProperties × BusStopProperties) :
    nearStep dist r1c r2c p.1 p.2 acc = genStep (nearCand dist r1c r2c) acc p := by
  obtain ⟨s1, s2⟩ := p
  rcases h1 : s1.longitud with _ | lo1 <;> rcases h2 : s1.latitud with _ | la1 <;>
    rcases h3 : s2.longitud with _ | lo2 <;> rcases h4 : s2.latitud with _ | la2 <;>
      simp only [nearStep, nearCand, genStep, h1, h2, h3, h4]

theorem proxStep_eq_genStep (dist : Pt → Pt → ℚ) (r1c r2c : String)
    (acc : Option TransferPoint × ℚ) (p : Pt × Pt) :
    proxStep dist r1c r2c p.1 p.2 acc = genStep (proxCand dist r1c r2c) acc p :=
  rfl

theorem nearCand_spec (dist : Pt → Pt → ℚ) (r1c r2c : String)
    (p : BusStopProperties × BusStopProperties) (tp : TransferPoint) (d : ℚ)
    (h : nearCand dist r1c r2c p = some (tp, d)) :
    tp.transfer_type = .Near ∧ tp.distance_to_route = d ∧
      d = dist (stopPos p.1) (stopPos p.2) := by
  obtain ⟨s1, s2⟩ := p
  rcases h1 : s1.longitud with _ | lo1 <;> rcases h2 : s1.latitud with _ | la1 <;>
    rcases h3 : s2.longitud with _ | lo2 <;> rcases h4 : s2.latitud with _ | la2 <;>
      simp only [nearCand, h1, h2, h3, h4] at h
  all_goals try exact Option.noConfusion h
  rw [Option.some.injEq, Prod.mk.injEq] at h
  obtain ⟨htp, hd⟩ := h
  subst htp
  subst hd
  refine ⟨rfl, rfl, ?_⟩
  simp [stopPos, h1, h2, h3, h4]

theorem nearCand_present (dist : Pt → Pt → ℚ) (r1c r2c : String)
    (p : BusStopProperties × BusStopProperties)
    (hq1 : p.1.latitud.isSome ∧ p.1.longitud.isSome)
    (hq2 : p.2.latitud.isSome ∧ p.2.longitud.isSome) :
    ∃ tp, nearCand dist r1c r2c p =
      some (tp, dist (stopPos p.1) (stopPos p.2)) := by
  obtain ⟨s1, s2⟩ := p
  have hr1 : s1.latitud.isSome ∧ s1.longitud.isSome := hq1
  have hr2 : s2.latitud.isSome ∧ s2.longitud.isSome := hq2
  obtain ⟨la1, h2⟩ := Option.isSome_iff_exists.1 hr1.1
  obtain ⟨lo1, h1⟩ := Option.isSome_iff_exists.1 hr1.2
  obtain ⟨la2, h4⟩ := Option.isSome_iff_exists.1 hr2.1
  obtain ⟨lo2, h3⟩ := Option.isSome_iff_exists.1 hr2.2
  refine ⟨⟨(lo1, la1), some s1, dist (lo1, la1) (lo2, la2), .Near, r1c, r2c⟩, ?_⟩
  simp [nearCand, h1, h2, h3, h4, stopPos]

theorem proxCand_spec (dist : Pt → Pt → ℚ) (r1c r2c : String)
    (p : Pt × Pt) (tp : TransferPoint) (d : ℚ)
    (h : proxCand dist r1c r2c p = some (tp, d)) :
    tp.transfer_type = .Proximate ∧ tp.distance_to_route = d ∧
      d = dist p.1 p.2 := by
  simp only [proxCand] at h
  rw [Option.some.injEq, Prod.mk.injEq] at h
  obtain ⟨htp, hd⟩ := h
  subst htp
  subst hd
  exact ⟨rfl, rfl, rfl⟩

theorem proxCand_eq (dist : Pt → Pt → ℚ) (r1c r2c : String) (p : Pt × Pt) :
    ∃ tp, proxCand dist r1c r2c p = some (tp, dist p.1 p.2) :=
  ⟨_, rfl⟩

theorem find_near_transfer_eq (s : SpatialSearch) (dist : Pt → Pt → ℚ)
    (r1 r2 : GeoJsonFeature RouteProperties) (md : ℚ)
    (stops1 stops2 : List BusStopProperties)
    (hs1 : s.bus_stops.lookup (codeOf r1) = some stops1)
    (hs2 : s.bus_stops.lookup (codeOf r2) = some stops2) :
    find_near_transfer s dist r1 r2 md =
      ((stops1.flatMap fun a => stops2.map fun b => (a, b)).foldl
        (genStep (nearCand dist (r1.properties.codigo_de.getD "")
          (r2.properties.codigo_de.getD ""))) (none, md)).1 := by
  unfold find_near_transfer
  rw [hs1, hs2]
  show (stops1.foldl (fun acc stop1 => stops2.foldl (fun acc stop2 =>
      nearStep dist (r1.properties.codigo_de.getD "")
        (r2.properties.codigo_de.getD "") stop1 stop2 acc) acc)
      ((none : Option TransferPoint), md)).1 = _
  refine congrArg Prod.fst (Eq.trans (foldl_nested_eq_flat
      (fun acc x y => nearStep dist (r1.properties.codigo_de.getD "")
        (r2.properties.codigo_de.getD "") x y acc) stops1 stops2 (none, md)) ?_)
  exact List.foldl_ext _ _ _ fun acc p _ =>
    nearStep_eq_genStep dist (r1.properties.codigo_de.getD "")
      (r2.properties.codigo_de.getD "") acc p

theorem find_proximate_transfer_eq (dist : Pt → Pt → ℚ)
    (r1 r2 : GeoJsonFeature RouteProperties) (md : ℚ)
    (coords1 coords2 : List Pt)
    (hg1 : r1.geometry = .lineString coords1)
    (hg2 : r2.geometry = .lineString coords2) :
    find_proximate_transfer dist r1 r2 md =
      ((coords1.flatMap fun a => coords2.map fun b => (a, b)).foldl
        (genStep (proxCand dist (r1.properties.codigo_de.getD "")
          (r2.properties.codigo_de.getD ""))) (none, md)).1 := by
  unfold find_proximate_transfer
  rw [hg1, hg2]
  show (coords1.foldl (fun acc c1 => coords2.foldl (fun acc c2 =>
      proxStep dist (r1.properties.codigo_de.getD "")
        (r2.properties.codigo_de.getD "") c1 c2 acc) acc)
      ((none : Option TransferPoint), md)).1 = _
  refine congrArg Prod.fst (Eq.trans (foldl_nested_eq_flat
      (fun acc x y => proxStep dist (r1.properties.codigo_de.getD "")
        (r2.properties.codigo_de.getD "") x y acc) coords1 coords2 (none, md)) ?_)
  exact List.foldl_ext _ _ _ fun acc p _ =>
    proxStep_eq_genStep dist (r1.properties.codigo_de.getD "")
      (r2.properties.codigo_de.getD "") acc p

theorem find_near_transfer_none (s : SpatialSearch) (dist : Pt → Pt → ℚ)
    (r1 r2 : GeoJsonFeature RouteProperties) (md : ℚ)
    (stops1 stops2 : List BusStopProperties)
    (hs1 : s.bus_stops.lookup (codeOf r1) = some stops1)
    (hs2 : s.bus_stops.lookup (codeOf r2) = some stops2)
    (hfar : ∀ a ∈ stops1, ∀ b ∈ stops2, md ≤ dist (stopPos a) (stopPos b)) :
    find_near_transfer s dist r1 r2 md = none := by
  rw [find_near_transfer_eq s dist r1 r2 md stops1 stops2 hs1 hs2]
  rw [foldl_genStep_unchanged]
  intro p hp tp d hc
  simp only [List.mem_flatMap, List.mem_map] at hp
  obtain ⟨a, ha, b, hb, rfl⟩ := hp
  obtain ⟨-, -, hdd⟩ := nearCand_spec dist _ _ _ tp d hc
  rw [hdd]
  exact hfar a ha b hb

theorem find_near_transfer_some (s : SpatialSearch) (dist : Pt → Pt → ℚ)
    (r1 r2 : GeoJsonFeature RouteProperties) (md : ℚ)
    (stops1 stops2 : List BusStopProperties)
    (hs1 : s.bus_stops.lookup (codeOf r1) = some stops1)
    (hs2 : s.bus_stops.lookup (codeOf r2) = some stops2)
    (hp1 : ∀ b ∈ stops1, b.latitud.isSome ∧ b.longitud.isSome)
    (hp2 : ∀ b ∈ stops2, b.latitud.isSome ∧ b.longitud.isSome)
    (hnear : ∃ a ∈ stops1, ∃ b ∈ stops2, dist (stopPos a) (stopPos b) < md) :
    ∃ tp, find_near_transfer s dist r1 r2 md = some tp ∧
      tp.transfer_type = .Near ∧ tp.distance_to_route < md ∧
      ∀ a ∈ stops1, ∀ b ∈ stops2,
        tp.distance_to_route ≤ dist (stopPos a) (stopPos b) := by
  rw [find_near_transfer_eq s dist r1 r2 md stops1 stops2 hs1 hs2]
  obtain ⟨x, hx, y, hy, hlt⟩ := hnear
  obtain ⟨tp0, hc0⟩ := nearCand_present dist
    (r1.properties.codigo_de.getD "") (r2.properties.codigo_de.getD "")
    (x, y) (hp1 x hx) (hp2 y hy)
  have hmem : (x, y) ∈ stops1.flatMap fun a => stops2.map fun b => (a, b) := by
    simp only [List.mem_flatMap, List.mem_map]
    exact ⟨x, hx, y, hy, rfl⟩
  obtain ⟨t, ht⟩ := foldl_genStep_fires _ _ ((none : Option TransferPoint), md)
    ⟨(x, y), hmem, tp0, _, hc0, hlt⟩
  rcases foldl_genStep_shape (nearCand dist (r1.properties.codigo_de.getD "")
      (r2.properties.codigo_de.getD ""))
      (stops1.flatMap fun a => stops2.map fun b => (a, b))
      ((none : Option TransferPoint), md) with
    heq | ⟨p, hpL, tp, d, hc, heq, hd⟩
  · rw [heq] at ht
    exact absurd ht (by simp)
  · obtain ⟨hty, hdist, -⟩ := nearCand_spec dist _ _ p tp d hc
    refine ⟨tp, by rw [heq], hty, by rw [hdist]; exact hd, ?_⟩
    intro a ha b hb
    obtain ⟨tpb, hcb⟩ := nearCand_present dist
      (r1.properties.codigo_de.getD "") (r2.properties.codigo_de.getD "")
      (a, b) (hp1 a ha) (hp2 b hb)
    have hmb : (a, b) ∈ stops1.flatMap fun u => stops2.map fun v => (u, v) := by
      simp only [List.mem_flatMap, List.mem_map]
      exact ⟨a, ha, b, hb, rfl⟩
    have hle := foldl_genStep_le_cand _ _ ((none : Option TransferPoint), md)
      (a, b) tpb _ hmb hcb
    rw [heq] at hle
    rw [hdist]
    exact hle

theorem find_proximate_transfer_none (dist : Pt → Pt → ℚ)
    (r1 r2 : GeoJsonFeature RouteProperties) (md : ℚ)
    (coords1 coords2 : List Pt)
    (hg1 : r1.geometry = .lineString coords1)
    (hg2 : r2.geometry = .lineString coords2)
    (hfar : ∀ a ∈ coords1, ∀ b ∈ coords2, md ≤ dist a b) :
    find_proximate_transfer dist r1 r2 md = none := by
  rw [find_proximate_transfer_eq dist r1 r2 md coords1 coords2 hg1 hg2]
  rw [foldl_genStep_unchanged]
  intro p hp tp d hc
  simp only [List.mem_flatMap, List.mem_map] at hp
  obtain ⟨a, ha, b, hb, rfl⟩ := hp
  obtain ⟨-, -, hdd⟩ := proxCand_spec dist _ _ _ tp d hc
  rw [hdd]
  exact hfar a ha b hb

theorem find_proximate_transfer_some (dist : Pt → Pt → ℚ)
    (r1 r2 : GeoJsonFeature RouteProperties) (md : ℚ)
    (coords1 coords2 : List Pt)
    (hg1 : r1.geometry = .lineString coords1)
    (hg2 : r2.geometry = .lineString coords2)
    (hprox : ∃ a ∈ coords1, ∃ b ∈ coords2, dist a b < md) :
    ∃ tp, find_proximate_transfer dist r1 r2 md = some tp ∧
      tp.transfer_type = .Proximate ∧ tp.distance_to_route < md ∧
      ∀ a ∈ coords1, ∀ b ∈ coords2, tp.distance_to_route ≤ dist a b := by
  rw [find_proximate_transfer_eq dist r1 r2 md coords1 coords2 hg1 hg2]
  obtain ⟨x, hx, y, hy, hlt⟩ := hprox
  obtain ⟨tp0, hc0⟩ := proxCand_eq dist
    (r1.properties.codigo_de.getD "") (r2.properties.codigo_de.getD "") (x, y)
  have hmem : (x, y) ∈ coords1.flatMap fun a => coords2.map fun b => (a, b) := by
    simp only [List.mem_flatMap, List.mem_map]
    exact ⟨x, hx, y, hy, rfl⟩
  obtain ⟨t, ht⟩ := foldl_genStep_fires _ _ ((none : Option TransferPoint), md)
    ⟨(x, y), hmem, tp0, _, hc0, hlt⟩
  rcases foldl_genStep_shape (proxCand dist (r1.properties.codigo_de.getD "")
      (r2.properties.codigo_de.getD ""))
      (coords1.flatMap fun a => coords2.map fun b => (a, b))
      ((none : Option TransferPoint), md) with
    heq | ⟨p, hpL, tp, d, hc, heq, hd⟩
  · rw [heq] at ht
    exact absurd ht (by simp)
  · obtain ⟨hty, hdist, -⟩ := proxCand_spec dist _ _ p tp d hc
    refine ⟨tp, by rw [heq], hty, by rw [hdist]; exact hd, ?_⟩
    intro a ha b hb
    obtain ⟨tpb, hcb⟩ := proxCand_eq dist
      (r1.properties.codigo_de.getD "") (r2.properties.codigo_de.getD "") (a, b)
    have hmb : (a, b) ∈ coords1.flatMap fun u => coords2.map fun v => (u, v) := by
      simp only [List.mem_flatMap, List.mem_map]
      exact ⟨a, ha, b, hb, rfl⟩
    have hle := foldl_genStep_le_cand _ _ ((none : Option TransferPoint), md)
      (a, b) tpb _ hmb hcb
    rw [heq] at hle
    rw [hdist]
    exact hle

theorem directScan_none_of_no_match (r1 r2 : GeoJsonFeature RouteProperties) :
    ∀ (stops1 stops2 : List BusStopProperties),
      (∀ a ∈ stops1, ∀ b ∈ stops2,
        ¬(a.latitud = b.latitud ∧ a.longitud = b.longitud)) →
      directScan r1 r2 stops1 stops2 = .ok none
  | [], _, _ => rfl
  | s1 :: rest, stops2, h => by
      unfold directScan
      split
      · rename_i hany
        obtain ⟨b, hb, hdec⟩ := List.any_eq_true.1 hany
        exact absurd (of_decide_eq_true hdec) (h s1 (List.mem_cons_self ..) b hb)
      · exact directScan_none_of_no_match r1 r2 rest stops2
          (fun a ha => h a (List.mem_cons_of_mem s1 ha))

theorem directScan_some_of_match (r1 r2 : GeoJsonFeature RouteProperties) :
    ∀ (stops1 stops2 : List BusStopProperties),
      (∀ b ∈ stops1, b.latitud.isSome ∧ b.longitud.isSome) →
      (∃ a ∈ stops1, ∃ b ∈ stops2,
        a.latitud = b.latitud ∧ a.longitud = b.longitud) →
      ∃ tp, directScan r1 r2 stops1 stops2 = .ok (some tp) ∧
        tp.transfer_type = .Direct ∧ tp.distance_to_route = 0
  | [], _, _, hex => absurd hex (by simp)
  | s1 :: rest, stops2, hp, hex => by
      unfold directScan
      split
      · obtain ⟨hla, hlo⟩ := hp s1 (List.mem_cons_self ..)
        obtain ⟨la, h2⟩ := Option.isSome_iff_exists.1 hla
        obtain ⟨lo, h1⟩ := Option.isSome_iff_exists.1 hlo
        rw [h1, h2]
        exact ⟨_, rfl, rfl, rfl⟩
      · rename_i hany
        have hrest : ∃ a ∈ rest, ∃ b ∈ stops2,
            a.latitud = b.latitud ∧ a.longitud = b.longitud := by
          obtain ⟨a, ha, b, hb, hmatch⟩ := hex
          rcases List.mem_cons.1 ha with rfl | ha'
          · exact absurd (List.any_eq_true.2 ⟨b, hb, decide_eq_true hmatch⟩) hany
          · exact ⟨a, ha', b, hb, hmatch⟩
        exact directScan_some_of_match r1 r2 rest stops2
          (fun b hb => hp b (List.mem_cons_of_mem s1 hb)) hrest

/-- **C6**: for an ordered pair of routes whose stops are on file and
fully coordinated, `find_best_transfer` records at most one transfer
point, by strict tier priority: if some stop of the first route has
coordinates exactly equal to some stop of the second, the result is a
Direct transfer with `distance_to_route = 0`; otherwise, if some stop
pair is strictly closer than `0.005`, the result is a Near transfer at
the minimum stop-pair distance (strictly below `0.005`); otherwise, if
some polyline-vertex pair is strictly closer than `0.01`, the result is
a Proximate transfer at the minimum vertex-pair distance (strictly below
`0.01`); and when no tier qualifies, no transfer point is recorded. -/
theorem C6_transfer_tier_priority (s : SpatialSearch) (dist : Pt → Pt → ℚ)
    (r1 r2 : GeoJsonFeature RouteProperties)
    (stops1 stops2 : List BusStopProperties) (coords1 coords2 : List Pt)
    (hs1 : s.bus_stops.lookup (codeOf r1) = some stops1)
    (hs2 : s.bus_stops.lookup (codeOf r2) = some stops2)
    (hp1 : ∀ b ∈ stops1, b.latitud.isSome ∧ b.longitud.isSome)
    (hp2 : ∀ b ∈ stops2, b.latitud.isSome ∧ b.longitud.isSome)
    (hg1 : r1.geometry = .lineString coords1)
    (hg2 : r2.geometry = .lineString coords2) :
    ((∃ a ∈ stops1, ∃ b ∈ stops2,
        a.latitud = b.latitud ∧ a.longitud = b.longitud) →
      ∃ tp, find_best_transfer s dist r1 r2 = .ok (some tp) ∧
        tp.transfer_type = .Direct ∧ tp.distance_to_route = 0) ∧
    (¬(∃ a ∈ stops1, ∃ b ∈ stops2,
        a.latitud = b.latitud ∧ a.longitud = b.longitud) →
      (∃ a ∈ stops1, ∃ b ∈ stops2,
        dist (stopPos a) (stopPos b) < 1/200) →
      ∃ tp, find_best_transfer s dist r1 r2 = .ok (some tp) ∧
        tp.transfer_type = .Near ∧ tp.distance_to_route < 1/200 ∧
        ∀ a ∈ stops1, ∀ b ∈ stops2,
          tp.distance_to_route ≤ dist (stopPos a) (stopPos b)) ∧
    (¬(∃ a ∈ stops1, ∃ b ∈ stops2,
        a.latitud = b.latitud ∧ a.longitud = b.longitud) →
      ¬(∃ a ∈ stops1, ∃ b ∈ stops2,
        dist (stopPos a) (stopPos b) < 1/200) →
      (∃ a ∈ coords1, ∃ b ∈ coords2, dist a b < 1/100) →
      ∃ tp, find_best_transfer s dist r1 r2 = .ok (some tp) ∧
        tp.transfer_type = .Proximate ∧ tp.distance_to_route < 1/100 ∧
        ∀ a ∈ coords1, ∀ b ∈ coords2, tp.distance_to_route ≤ dist a b) ∧
    (¬(∃ a ∈ stops1, ∃ b ∈ stops2,
        a.latitud = b.latitud ∧ a.longitud = b.longitud) →
      ¬(∃ a ∈ stops1, ∃ b ∈ stops2,
        dist (stopPos a) (stopPos b) < 1/200) →
      ¬(∃ a ∈ coords1, ∃ b ∈ coords2, dist a b < 1/100) →
      find_best_transfer s dist r1 r2 = .ok none) := by
  have hfd_eq : ∀ o, directScan r1 r2 stops1 stops2 = o →
      find_direct_transfer s r1 r2 = o := by
    intro o ho
    unfold find_direct_transfer
    rw [hs1, hs2]
    exact ho
  have hbind : find_best_transfer s dist r1 r2 =
      (find_direct_transfer s r1 r2).bind (fun x =>
        match x with
        | some transfer => pure (some transfer)
        | none =>
            match find_near_transfer s dist r1 r2 (1/200) with
            | some transfer => pure (some transfer)
            | none => pure (find_proximate_transfer dist r1 r2 (1/100))) := rfl
  refine ⟨?_, ?_, ?_, ?_⟩
  · intro hex
    obtain ⟨tp, hdp, h1, h2⟩ :=
      directScan_some_of_match r1 r2 stops1 stops2 hp1 hex
    refine ⟨tp, ?_, h1, h2⟩
    rw [hbind, hfd_eq _ hdp]
    rfl
  · intro hnex hq
    have hno : ∀ a ∈ stops1, ∀ b ∈ stops2,
        ¬(a.latitud = b.latitud ∧ a.longitud = b.longitud) :=
      fun a ha b hb hm => hnex ⟨a, ha, b, hb, hm⟩
    have hfd := hfd_eq _ (directScan_none_of_no_match r1 r2 stops1 stops2 hno)
    obtain ⟨tp, hnt, hty, hlt, hmin⟩ := find_near_transfer_some s dist r1 r2
      (1/200) stops1 stops2 hs1 hs2 hp1 hp2 hq
    refine ⟨tp, ?_, hty, hlt, hmin⟩
    rw [hbind, hfd, hnt]
    rfl
  · intro hnex hnq hpq
    have hno : ∀ a ∈ stops1, ∀ b ∈ stops2,
        ¬(a.latitud = b.latitud ∧ a.longitud = b.longitud) :=
      fun a ha b hb hm => hnex ⟨a, ha, b, hb, hm⟩
    have hfd := hfd_eq _ (directScan_none_of_no_match r1 r2 stops1 stops2 hno)
    have hfar : ∀ a ∈ stops1, ∀ b ∈ stops2,
        1/200 ≤ dist (stopPos a) (stopPos b) := by
      intro a ha b hb
      by_contra hlt
      exact hnq ⟨a, ha, b, hb, not_le.1 hlt⟩
    have hnt := find_near_transfer_none s dist r1 r2 (1/200) stops1 stops2
      hs1 hs2 hfar
    obtain ⟨tp, hpt, hty, hlt, hmin⟩ := find_proximate_transfer_some dist r1 r2
      (1/100) coords1 coords2 hg1 hg2 hpq
    refine ⟨tp, ?_, hty, hlt, hmin⟩
    rw [hbind, hfd, hnt, hpt]
    rfl
  · intro hnex hnq hnp
    have hno : ∀ a ∈ stops1, ∀ b ∈ stops2,
        ¬(a.latitud = b.latitud ∧ a.longitud = b.longitud) :=
      fun a ha b hb hm => hnex ⟨a, ha, b, hb, hm⟩
    have hfd := hfd_eq _ (directScan_none_of_no_match r1 r2 stops1 stops2 hno)
    have hfar : ∀ a ∈ stops1, ∀ b ∈ stops2,
        1/200 ≤ dist (stopPos a) (stopPos b) := by
      intro a ha b hb
      by_contra hlt
      exact hnq ⟨a, ha, b, hb, not_le.1 hlt⟩
    have hnt := find_near_transfer_none s dist r1 r2 (1/200) stops1 stops2
      hs1 hs2 hfar
    have hpfar : ∀ a ∈ coords1, ∀ b ∈ coords2, 1/100 ≤ dist a b := by
      intro a ha b hb
      by_contra hlt
      exact hnp ⟨a, ha, b, hb, not_le.1 hlt⟩
    have hpt := find_proximate_transfer_none dist r1 r2 (1/100) coords1 coords2
      hg1 hg2 hpfar
    rw [hbind, hfd, hnt, hpt]
    rfl

theorem C6_transfer_tier_priority_witness :
    (∃ a ∈ [stopA1a, stopA1b], ∃ b ∈ [stopB1],
      a.latitud = b.latitud ∧ a.longitud = b.longitud) ∧
    ∃ tp, find_best_transfer sC1 distL1 featA1 featB1 = .ok (some tp) ∧
      tp.transfer_type = .Direct ∧ tp.distance_to_route = 0 :=
  ⟨by decide,
   (C6_transfer_tier_priority sC1 distL1 featA1 featB1
      [stopA1a, stopA1b] [stopB1] [(0, 0), (2, 0)] [(401/200, 0), (4, 0)]
      rfl rfl (by decide) (by decide) rfl rfl).1 (by decide)⟩
